import Mathlib

/-! ## ngfd: D-Bus input plugin (`src/plugins/dbus/plugin.c`)

A shallow embedding of the D-Bus control handler of the non-graphic feedback
daemon.  Wire messages are modelled as typed argument lists, the process-wide
`g_data->event_id` counter is explicit state, and every outward action of a
handler (replies on the bus, calls into the request engine, the `Status`
signal) is recorded, in program order, in an effect trace.

Allocation of D-Bus messages is assumed to succeed (`dbus_message_new_*`
returning non-NULL), so each `dbusif_ack` / `dbusif_reply_error` sends.
-/

namespace Ngfd

/-! ## ngf core data: values, property lists, requests -/

/-- Tagged scalar stored in a property list (`ngf/value.h`). -/
inductive NValue
  | string (s : String)
  | uint (n : Nat)
  | int (i : Int)
  | bool (b : Bool)
  deriving DecidableEq, Repr

/-- Modelled from the spec: the property bag `NProplist` (`ngf/proplist.h`, not
part of the plugin sources) is an ordered mapping from string key to a tagged
scalar value with unique keys. -/
abbrev NProplist := List (String × NValue)

/-- Modelled from the spec: `n_proplist_new` yields the empty property bag. -/
def n_proplist_new : NProplist := []

/-- Modelled from the spec: writing a key of the property bag (the common core
of the `n_proplist_set_*` family, absent from the plugin sources); keys stay
unique and a later write overwrites an earlier one. -/
def n_proplist_set (proplist : NProplist) (key : String) (value : NValue) : NProplist :=
  match proplist with
  | [] => [(key, value)]
  | (k, w) :: rest =>
    if k = key then (key, value) :: rest else (k, w) :: n_proplist_set rest key value

/-- Modelled from the spec: `n_proplist_set_string`, a write of a string value. -/
def n_proplist_set_string (proplist : NProplist) (key : String) (value : String) : NProplist :=
  n_proplist_set proplist key (NValue.string value)

/-- Modelled from the spec: `n_proplist_set_uint`, a write of an unsigned value. -/
def n_proplist_set_uint (proplist : NProplist) (key : String) (value : Nat) : NProplist :=
  n_proplist_set proplist key (NValue.uint value)

/-- Modelled from the spec: `n_proplist_set_int`, a write of a signed value. -/
def n_proplist_set_int (proplist : NProplist) (key : String) (value : Int) : NProplist :=
  n_proplist_set proplist key (NValue.int value)

/-- Modelled from the spec: `n_proplist_set_bool`, a write of a boolean value. -/
def n_proplist_set_bool (proplist : NProplist) (key : String) (value : Bool) : NProplist :=
  n_proplist_set proplist key (NValue.bool value)

/-- Modelled from the spec: reading a key of the property bag (`n_proplist_get`,
absent from the plugin sources). -/
def n_proplist_get (proplist : NProplist) (key : String) : Option NValue :=
  match proplist with
  | [] => none
  | (k, w) :: rest => if k = key then some w else n_proplist_get rest key

/-- Modelled from the spec: `n_proplist_get_uint` (absent from the plugin
sources) reads the stored correlation property; the value 0 stands for "never
assigned", which is what a missing list, a missing key or a value of another
type reads as. -/
def n_proplist_get_uint (proplist : Option NProplist) (key : String) : Nat :=
  match proplist with
  | none => 0
  | some p =>
    match n_proplist_get p key with
    | some (NValue.uint n) => n
    | _ => 0

/-- Request handle as the plugin observes it: `n_request_get_name` and
`n_request_get_properties`, either of which may be NULL. -/
structure NRequest where
  name : Option String
  properties : Option NProplist
  deriving DecidableEq, Repr

def n_request_get_name (request : NRequest) : Option String := request.name

def n_request_get_properties (request : NRequest) : Option NProplist := request.properties

/-- Modelled from the spec: `n_request_new_with_event_and_properties` (engine
code, absent from the plugin sources) constructs a request from the event name
and the property bag. -/
def n_request_new_with_event_and_properties (event : String) (properties : NProplist) :
    NRequest :=
  { name := some event, properties := some properties }

/-! ## D-Bus wire model -/

/-- Argument type codes reported by `dbus_message_iter_get_arg_type`. -/
inductive DBusType
  | INVALID
  | STRING
  | UINT32
  | INT32
  | BOOLEAN
  | VARIANT
  | DICT_ENTRY
  | ARRAY
  | OTHER (code : Nat)
  deriving DecidableEq, Repr

/-- One complete value below the top level of a message: an array element, a
field of a dict entry, or the content of a variant.  `other` stands for every
D-Bus type the plugin never opens (bytes, doubles, structs, nested arrays, ...). -/
inductive DBusItem
  | string (s : String)
  | uint32 (n : Nat)
  | int32 (i : Int)
  | boolean (b : Bool)
  | variant (inner : DBusItem)
  | dictEntry (key : DBusItem) (value : DBusItem)
  | other (code : Nat)
  deriving DecidableEq, Repr

/-- A top-level message argument: a single item or an array of items. -/
inductive DBusArg
  | item (i : DBusItem)
  | array (elems : List DBusItem)
  deriving DecidableEq, Repr

inductive DBusMessageType
  | METHOD_CALL
  | METHOD_RETURN
  | ERROR
  | SIGNAL
  deriving DecidableEq, Repr

/-- The header fields and body of an inbound message that the handler reads. -/
structure DBusMessage where
  msgType : DBusMessageType
  interface : Option String
  member : Option String
  args : List DBusArg
  deriving DecidableEq, Repr

inductive DBusHandlerResult
  | HANDLED
  | NOT_YET_HANDLED
  deriving DecidableEq, Repr

def DBusItem.argType : DBusItem → DBusType
  | DBusItem.string _ => DBusType.STRING
  | DBusItem.uint32 _ => DBusType.UINT32
  | DBusItem.int32 _ => DBusType.INT32
  | DBusItem.boolean _ => DBusType.BOOLEAN
  | DBusItem.variant _ => DBusType.VARIANT
  | DBusItem.dictEntry _ _ => DBusType.DICT_ENTRY
  | DBusItem.other code => DBusType.OTHER code

def DBusArg.argType : DBusArg → DBusType
  | DBusArg.item i => i.argType
  | DBusArg.array _ => DBusType.ARRAY

/-- The iterator over the top-level arguments: the arguments still to be read. -/
def dbus_message_iter_init (msg : DBusMessage) : List DBusArg := msg.args

/-- Type of the argument under the iterator, `INVALID` at the end. -/
def dbus_message_iter_get_arg_type (iter : List DBusArg) : DBusType :=
  match iter with
  | [] => DBusType.INVALID
  | a :: _ => a.argType

def dbus_message_iter_next (iter : List DBusArg) : List DBusArg := iter.tail

def dbus_message_get_member (msg : DBusMessage) : Option String := msg.member

/-- libdbus `dbus_message_has_interface` for a non-NULL interface name. -/
def dbus_message_has_interface (msg : DBusMessage) (iface : String) : Bool :=
  match msg.interface with
  | none => false
  | some i => i == iface

/-- libdbus `dbus_message_is_signal`: the message type is SIGNAL, the member is
the given one, and the interface field is absent or the given one. -/
def dbus_message_is_signal (msg : DBusMessage) (iface : String) (signal_name : String) : Bool :=
  if msg.msgType ≠ DBusMessageType.SIGNAL then false
  else
    match msg.member with
    | none => false
    | some n =>
      if n == signal_name then
        match msg.interface with
        | none => true
        | some i => i == iface
      else false

/-- The call `dbus_message_get_args (msg, _, UINT32, &event_id, INVALID)`: the
first argument must be a uint32; further arguments are not inspected. -/
def dbus_message_get_args_uint32 (msg : DBusMessage) : Option Nat :=
  match msg.args with
  | DBusArg.item (DBusItem.uint32 event_id) :: _ => some event_id
  | _ => none

/-- The call `dbus_message_get_args (msg, _, UINT32, &event_id, BOOLEAN, &pause,
INVALID)`. -/
def dbus_message_get_args_uint32_boolean (msg : DBusMessage) : Option (Nat × Bool) :=
  match msg.args with
  | DBusArg.item (DBusItem.uint32 event_id) :: DBusArg.item (DBusItem.boolean pause) :: _ =>
    some (event_id, pause)
  | _ => none

/-- The call `dbus_message_get_args (msg, &error, STRING, &component, STRING,
&s1, STRING, &s2, INVALID)`. -/
def dbus_message_get_args_string3 (msg : DBusMessage) : Option (String × String × String) :=
  match msg.args with
  | DBusArg.item (DBusItem.string component) :: DBusArg.item (DBusItem.string s1) ::
      DBusArg.item (DBusItem.string s2) :: _ => some (component, s1, s2)
  | _ => none

/-! ## Constants of the plugin -/

def NGF_DBUS_IFACE : String := "com.nokia.NonGraphicFeedback1"
def NGF_DBUS_METHOD_PLAY : String := "Play"
def NGF_DBUS_METHOD_STOP : String := "Stop"
def NGF_DBUS_METHOD_PAUSE : String := "Pause"
def NGF_DBUS_PROPERTY : String := "dbus.event.id"
def RINGTONE_STOP_TIMEOUT : Nat := 200

/-- Wrap-around of the `uint32_t` / `guint` type. -/
def UINT32_MOD : Nat := 2 ^ 32

/-! ## Effects -/

/-- Outward actions of the plugin, in the order the code performs them. -/
inductive Effect
  /-- Method return carrying one uint32, sent by `dbusif_ack`. -/
  | ack (event_id : Nat)
  /-- Error reply sent by `dbusif_reply_error`. -/
  | reply_error (text : String)
  /-- Call of `n_input_interface_play_request`. -/
  | play_request (request : NRequest)
  /-- Call of `n_input_interface_pause_request`. -/
  | pause_request (request : NRequest)
  /-- Call of `n_input_interface_stop_request` with its timeout argument. -/
  | stop_request (request : NRequest) (timeout : Nat)
  /-- The `Status` signal with its two uint32 arguments. -/
  | status_signal (event_id : Nat) (status : Nat)
  deriving DecidableEq, Repr

def Effect.isAck : Effect → Bool
  | Effect.ack _ => true
  | _ => false

def Effect.isError : Effect → Bool
  | Effect.reply_error _ => true
  | _ => false

def Effect.isPlay : Effect → Bool
  | Effect.play_request _ => true
  | _ => false

def Effect.isPause : Effect → Bool
  | Effect.pause_request _ => true
  | _ => false

def Effect.isStop : Effect → Bool
  | Effect.stop_request _ _ => true
  | _ => false

/-- Any call into the request engine. -/
def Effect.isEngineCall (e : Effect) : Bool := e.isPlay || e.isPause || e.isStop

/-- The ids carried by the acks of a trace, in order. -/
def ack_ids : List Effect → List Nat
  | [] => []
  | Effect.ack event_id :: rest => event_id :: ack_ids rest
  | _ :: rest => ack_ids rest

/-! ## Property codec (`msg_parse_variant`, `msg_parse_dict`, `msg_get_properties`) -/

def msg_parse_variant (iter : DBusItem) (proplist : NProplist) (key : Option String) :
    Bool × NProplist :=
  match key with
  | none => (false, proplist)
  | some key =>
    match iter with
    | DBusItem.variant variant =>
      match variant with
      | DBusItem.string str_value => (true, n_proplist_set_string proplist key str_value)
      | DBusItem.uint32 uint_value => (true, n_proplist_set_uint proplist key uint_value)
      | DBusItem.int32 int_value => (true, n_proplist_set_int proplist key int_value)
      | DBusItem.boolean boolean_value =>
        (true, n_proplist_set_bool proplist key (if boolean_value then true else false))
      | _ => (false, proplist)
    | _ => (false, proplist)

def msg_parse_dict (iter : DBusItem) (proplist : NProplist) : Bool × NProplist :=
  match iter with
  | DBusItem.dictEntry dictKey dictValue =>
    match dictKey with
    | DBusItem.string key =>
      let r := msg_parse_variant dictValue proplist (some key)
      if !r.1 then (false, r.2) else (true, r.2)
    | _ => (false, proplist)
  | _ => (false, proplist)

/-- The `while` loop of `msg_get_properties` over the array iterator; the result
of `msg_parse_dict` is discarded, its writes to `p` are kept. -/
def msg_get_properties_loop (array : List DBusItem) (p : NProplist) : NProplist :=
  match array with
  | [] => p
  | entry :: rest => msg_get_properties_loop rest (msg_parse_dict entry p).2

/-- Returns `none` for FALSE, `some properties` for TRUE with `*properties` set. -/
def msg_get_properties (iter : List DBusArg) : Option NProplist :=
  match iter with
  | DBusArg.array array :: _ => some (msg_get_properties_loop array n_proplist_new)
  | _ => none

/-! ## Replies -/

def dbusif_ack (event_id : Nat) : Effect := Effect.ack event_id

def dbusif_reply_error (error_message : Option String) : Effect :=
  Effect.reply_error (match error_message with
    | some error => error
    | none => "Unknown error.")

/-! ## Handlers -/

def dbusif_play_handler (msg : DBusMessage) (event_id : Nat) :
    DBusHandlerResult × List Effect :=
  let iter := dbus_message_iter_init msg
  match iter with
  | DBusArg.item (DBusItem.string event) :: _ =>
    let iter := dbus_message_iter_next iter
    match msg_get_properties iter with
    | none =>
      (DBusHandlerResult.HANDLED, [dbusif_reply_error (some "Malformed method call.")])
    | some properties =>
      let properties := n_proplist_set_uint properties NGF_DBUS_PROPERTY event_id
      let request := n_request_new_with_event_and_properties event properties
      (DBusHandlerResult.HANDLED, [dbusif_ack event_id, Effect.play_request request])
  | _ => (DBusHandlerResult.HANDLED, [dbusif_reply_error (some "Malformed method call.")])

/-- The `for` loop of `dbusif_lookup_request` over the active requests. -/
def dbusif_lookup_request_loop (active_requests : List NRequest) (event_id : Nat) :
    Option NRequest :=
  match active_requests with
  | [] => none
  | request :: rest =>
    match n_request_get_properties request with
    | none => dbusif_lookup_request_loop rest event_id
    | some properties =>
      if n_proplist_get_uint (some properties) NGF_DBUS_PROPERTY = event_id then some request
      else dbusif_lookup_request_loop rest event_id

/-- The active requests are what `n_core_get_requests` returns at the call. -/
def dbusif_lookup_request (active_requests : List NRequest) (event_id : Nat) :
    Option NRequest :=
  if event_id = 0 then none
  else dbusif_lookup_request_loop active_requests event_id

def dbusif_stop_all (active_requests : List NRequest) : List Effect :=
  match active_requests with
  | [] => []
  | request :: rest => Effect.stop_request request 0 :: dbusif_stop_all rest

def dbusif_stop_handler (active_requests : List NRequest) (msg : DBusMessage) :
    DBusHandlerResult × List Effect :=
  match dbus_message_get_args_uint32 msg with
  | none => (DBusHandlerResult.HANDLED, [dbusif_reply_error (some "Malformed method call.")])
  | some event_id =>
    match dbusif_lookup_request active_requests event_id with
    | none =>
      (DBusHandlerResult.HANDLED, [dbusif_reply_error (some "No event with given id found.")])
    | some request =>
      let name := n_request_get_name request
      let calls :=
        if name = some "ringtone" then
          [Effect.pause_request request, Effect.stop_request request RINGTONE_STOP_TIMEOUT]
        else
          [Effect.stop_request request 0]
      (DBusHandlerResult.HANDLED, calls ++ [dbusif_ack event_id])

def dbusif_pause_handler (active_requests : List NRequest) (msg : DBusMessage) :
    DBusHandlerResult × List Effect :=
  match dbus_message_get_args_uint32_boolean msg with
  | none => (DBusHandlerResult.HANDLED, [dbusif_reply_error (some "Malformed method call.")])
  | some (event_id, pause) =>
    match dbusif_lookup_request active_requests event_id with
    | none =>
      (DBusHandlerResult.HANDLED, [dbusif_reply_error (some "No event with given id found.")])
    | some request =>
      let call := if pause then Effect.pause_request request else Effect.play_request request
      (DBusHandlerResult.HANDLED, [call, dbusif_ack event_id])

/-! ## Dispatcher and plugin state -/

/-- The part of `DBusInterfaceData` that the handlers change: the counter. -/
structure DBusInterfaceData where
  event_id : Nat
  deriving DecidableEq, Repr

/-- State after `g_new0 (DBusInterfaceData, 1)`: the counter is zero. -/
def dbusif_initialize : DBusInterfaceData := { event_id := 0 }

/-- One call of the message function: result, next state and effect trace. -/
def dbusif_message_function (g_data : DBusInterfaceData) (active_requests : List NRequest)
    (msg : DBusMessage) : DBusHandlerResult × DBusInterfaceData × List Effect :=
  let member := dbus_message_get_member msg
  if dbus_message_is_signal msg "org.freedesktop.DBus" "NameOwnerChanged" then
    match dbus_message_get_args_string3 msg with
    | none => (DBusHandlerResult.NOT_YET_HANDLED, g_data, [])
    | some (component, _, _) =>
      if component = "org.freedesktop.ohm" then
        (DBusHandlerResult.NOT_YET_HANDLED, g_data, dbusif_stop_all active_requests)
      else (DBusHandlerResult.NOT_YET_HANDLED, g_data, [])
  else
    match member with
    | none => (DBusHandlerResult.HANDLED, g_data, [])
    | some member =>
      if !dbus_message_has_interface msg NGF_DBUS_IFACE then
        (DBusHandlerResult.HANDLED, g_data, [])
      else if member = NGF_DBUS_METHOD_PLAY then
        let event_id := (g_data.event_id + 1) % UINT32_MOD
        let r := dbusif_play_handler msg event_id
        (r.1, { g_data with event_id := event_id }, r.2)
      else if member = NGF_DBUS_METHOD_STOP then
        let r := dbusif_stop_handler active_requests msg
        (r.1, g_data, r.2)
      else if member = NGF_DBUS_METHOD_PAUSE then
        let r := dbusif_pause_handler active_requests msg
        (r.1, g_data, r.2)
      else (DBusHandlerResult.HANDLED, g_data, [])

/-! ## Status notifier -/

/-- Conversion `status = code` from `int` to `guint`. -/
def int_to_guint (code : Int) : Nat := (code % (UINT32_MOD : Int)).toNat

def dbusif_send_reply (request : NRequest) (code : Int) : List Effect :=
  let props := n_request_get_properties request
  let event_id := n_proplist_get_uint props NGF_DBUS_PROPERTY
  let status := int_to_guint code
  if event_id = 0 then []
  else [Effect.status_signal event_id status]

def dbusif_send_error (request : NRequest) (_err_msg : Option String) : List Effect :=
  dbusif_send_reply request 0

/-! ## Message sequences -/

/-- The dispatcher routes `msg` to `dbusif_play_handler`: it is not the
NameOwnerChanged signal, its member is "Play" and it is on the plugin interface. -/
def is_play_call (msg : DBusMessage) : Bool :=
  !dbus_message_is_signal msg "org.freedesktop.DBus" "NameOwnerChanged" &&
    (dbus_message_get_member msg == some NGF_DBUS_METHOD_PLAY) &&
    dbus_message_has_interface msg NGF_DBUS_IFACE

/-- The dispatcher routes `msg` to `dbusif_stop_handler`. -/
def is_stop_call (msg : DBusMessage) : Bool :=
  !dbus_message_is_signal msg "org.freedesktop.DBus" "NameOwnerChanged" &&
    (dbus_message_get_member msg == some NGF_DBUS_METHOD_STOP) &&
    dbus_message_has_interface msg NGF_DBUS_IFACE

/-- The dispatcher routes `msg` to `dbusif_pause_handler`. -/
def is_pause_call (msg : DBusMessage) : Bool :=
  !dbus_message_is_signal msg "org.freedesktop.DBus" "NameOwnerChanged" &&
    (dbus_message_get_member msg == some NGF_DBUS_METHOD_PAUSE) &&
    dbus_message_has_interface msg NGF_DBUS_IFACE

/-- The two argument checks of `dbusif_play_handler` both pass: the first
argument is a string and the next one an array. -/
def play_args_accepted (msg : DBusMessage) : Bool :=
  (dbus_message_iter_get_arg_type (dbus_message_iter_init msg) == DBusType.STRING) &&
    (dbus_message_iter_get_arg_type (dbus_message_iter_next (dbus_message_iter_init msg))
      == DBusType.ARRAY)

/-- One inbound message together with the engine's active requests
(`n_core_get_requests`) at the moment it is dispatched. -/
structure Inbound where
  active_requests : List NRequest
  msg : DBusMessage
  deriving DecidableEq, Repr

/-- The ids acked to the Play messages of a sequence, in arrival order. -/
def play_ack_ids (g_data : DBusInterfaceData) : List Inbound → List Nat
  | [] => []
  | i :: rest =>
    let r := dbusif_message_function g_data i.active_requests i.msg
    (if is_play_call i.msg then ack_ids r.2.2 else []) ++ play_ack_ids r.2.1 rest

/-- Number of Play messages in a sequence. -/
def count_play_calls (inputs : List Inbound) : Nat :=
  (inputs.filter (fun i => is_play_call i.msg)).length

/-- Number of Play messages of a sequence that pass the argument checks. -/
def count_accepted_plays (inputs : List Inbound) : Nat :=
  (inputs.filter (fun i => is_play_call i.msg && play_args_accepted i.msg)).length

/-! ## Sample messages and requests -/

/-- A method call on the plugin interface. -/
def method_call (member : String) (args : List DBusArg) : DBusMessage :=
  { msgType := DBusMessageType.METHOD_CALL, interface := some NGF_DBUS_IFACE,
    member := some member, args := args }

/-- The call Play ("ringtone", {"media.audio": true, "volume": 7}). -/
def sample_play_ringtone : DBusMessage :=
  method_call "Play"
    [DBusArg.item (DBusItem.string "ringtone"),
     DBusArg.array
      [DBusItem.dictEntry (DBusItem.string "media.audio")
          (DBusItem.variant (DBusItem.boolean true)),
       DBusItem.dictEntry (DBusItem.string "volume")
          (DBusItem.variant (DBusItem.uint32 7))]]

/-- The call Play ("alarm", {}). -/
def sample_play_alarm : DBusMessage :=
  method_call "Play" [DBusArg.item (DBusItem.string "alarm"), DBusArg.array []]

/-- A Play call whose first argument is a uint32. -/
def sample_play_malformed : DBusMessage :=
  method_call "Play" [DBusArg.item (DBusItem.uint32 5), DBusArg.array []]

/-- The call Stop (id). -/
def sample_stop (event_id : Nat) : DBusMessage :=
  method_call "Stop" [DBusArg.item (DBusItem.uint32 event_id)]

/-- The call Pause (id, pause). -/
def sample_pause (event_id : Nat) (pause : Bool) : DBusMessage :=
  method_call "Pause"
    [DBusArg.item (DBusItem.uint32 event_id), DBusArg.item (DBusItem.boolean pause)]

/-- The signal NameOwnerChanged (name, old owner, new owner) of the bus daemon. -/
def sample_name_owner_changed (name : String) : DBusMessage :=
  { msgType := DBusMessageType.SIGNAL, interface := some "org.freedesktop.DBus",
    member := some "NameOwnerChanged",
    args := [DBusArg.item (DBusItem.string name), DBusArg.item (DBusItem.string ":1.7"),
      DBusArg.item (DBusItem.string "")] }

/-- An active request named "ringtone" created by Play with id 1. -/
def sample_request_ringtone : NRequest :=
  { name := some "ringtone", properties := some [("dbus.event.id", NValue.uint 1)] }

/-- An active request named "alarm" created by Play with id 2. -/
def sample_request_alarm : NRequest :=
  { name := some "alarm", properties := some [("dbus.event.id", NValue.uint 2)] }

/-- An active request without a correlation property. -/
def sample_request_untagged : NRequest :=
  { name := some "sms", properties := some [("media.audio", NValue.bool true)] }

/-- Three Play messages, the middle one malformed, with a Stop in between. -/
def sample_inputs : List Inbound :=
  [{ active_requests := [], msg := sample_play_ringtone },
   { active_requests := [sample_request_ringtone], msg := sample_play_malformed },
   { active_requests := [sample_request_ringtone], msg := sample_stop 1 },
   { active_requests := [], msg := sample_play_alarm }]

/-- The call Play ("alarm") without a properties argument. -/
def sample_play_no_properties : DBusMessage :=
  method_call "Play" [DBusArg.item (DBusItem.string "alarm")]

/-- A method call on another interface. -/
def sample_foreign_call : DBusMessage :=
  { msgType := DBusMessageType.METHOD_CALL, interface := some "org.example.Other",
    member := some "Ping", args := [] }

/-- A call of an unknown method on the plugin interface. -/
def sample_unknown_method : DBusMessage :=
  method_call "Resume" [DBusArg.item (DBusItem.uint32 1)]

/-! ## Property codec as the specification words it -/

/-- The write that one wire entry stands for in the words of the specification:
a dict entry with a string key and a variant value of type string, uint32, int32
or boolean is a `set (key, value)`; every other entry is skipped. -/
def spec_entry_write (entry : DBusItem) : Option (String × NValue) :=
  match entry with
  | DBusItem.dictEntry (DBusItem.string key) (DBusItem.variant (DBusItem.string s)) =>
    some (key, NValue.string s)
  | DBusItem.dictEntry (DBusItem.string key) (DBusItem.variant (DBusItem.uint32 n)) =>
    some (key, NValue.uint n)
  | DBusItem.dictEntry (DBusItem.string key) (DBusItem.variant (DBusItem.int32 i)) =>
    some (key, NValue.int i)
  | DBusItem.dictEntry (DBusItem.string key) (DBusItem.variant (DBusItem.boolean b)) =>
    some (key, NValue.bool b)
  | _ => none

/-- Applying a list of writes, in order, to a property bag. -/
def spec_apply_writes (p : NProplist) : List (String × NValue) → NProplist
  | [] => p
  | (key, value) :: rest => spec_apply_writes (n_proplist_set p key value) rest

/-- Decode in the words of the specification: the writes of the supported
entries, applied in array order to the empty bag. -/
def spec_decode (array : List DBusItem) : NProplist :=
  spec_apply_writes n_proplist_new (array.filterMap spec_entry_write)

/-! ## The reserved key on the wire -/

/-- A wire entry for the reserved key: a dict entry whose key is the string
"dbus.event.id", whatever its value. -/
def is_reserved_entry (entry : DBusItem) : Bool :=
  match entry with
  | DBusItem.dictEntry (DBusItem.string key) _ => key == "dbus.event.id"
  | _ => false

/-- The keys of a property bag, in order. -/
def n_proplist_keys (p : NProplist) : List String := p.map Prod.fst

/-- The call Play ("alarm", {"dbus.event.id": 77, "volume": 7}), a client
trying to pick its own id. -/
def sample_play_spoofed : DBusMessage :=
  method_call "Play"
    [DBusArg.item (DBusItem.string "alarm"),
     DBusArg.array
      [DBusItem.dictEntry (DBusItem.string "dbus.event.id")
          (DBusItem.variant (DBusItem.uint32 77)),
       DBusItem.dictEntry (DBusItem.string "volume")
          (DBusItem.variant (DBusItem.uint32 7))]]

/-- The call Play ("alarm", {"volume": 7}). -/
def sample_play_plain : DBusMessage :=
  method_call "Play"
    [DBusArg.item (DBusItem.string "alarm"),
     DBusArg.array
      [DBusItem.dictEntry (DBusItem.string "volume")
          (DBusItem.variant (DBusItem.uint32 7))]]

/-! ## Lookup as the specification words it -/

/-- The property bag of the request stores `event_id`, as an unsigned value,
under "dbus.event.id"; a request without a property bag stores nothing. -/
def request_stores_id (request : NRequest) (event_id : Nat) : Bool :=
  match n_request_get_properties request with
  | none => false
  | some p => n_proplist_get p "dbus.event.id" == some (NValue.uint event_id)

/-! ## Delayed stop: the timer behind the stop call -/

/-- Modelled from the spec: `n_proplist_size` (absent from the plugin sources),
the number of keys of a property bag. -/
def n_proplist_size (proplist : Option NProplist) : Nat :=
  match proplist with
  | none => 0
  | some p => p.length

/-- Modelled from the spec: `n_proplist_has_key` (absent from the plugin
sources), whether the key is present in the property bag. -/
def n_proplist_has_key (proplist : Option NProplist) (key : String) : Bool :=
  match proplist with
  | none => false
  | some p => (n_proplist_get p key).isSome

/-- Modelled from the spec: `n_proplist_get_bool` (absent from the plugin
sources) reads a boolean flag; a missing list, a missing key or a value of
another type reads as false. -/
def n_proplist_get_bool (proplist : Option NProplist) (key : String) : Bool :=
  match proplist with
  | none => false
  | some p =>
    match n_proplist_get p key with
    | some (NValue.bool b) => b
    | _ => false

/-- Modelled from the spec: `n_proplist_get_string` (absent from the plugin
sources) reads a configured name; NULL for a missing list, a missing key or a
value of another type. -/
def n_proplist_get_string (proplist : Option NProplist) (key : String) : Option String :=
  match proplist with
  | none => none
  | some p =>
    match n_proplist_get p key with
    | some (NValue.string s) => some s
    | _ => none

/-- A sink handle: `handle` stands for the pointer, `name` is what
`n_sink_interface_get_name` returns. -/
structure NSinkInterface where
  handle : Nat
  name : String
  deriving DecidableEq, Repr

def n_sink_interface_get_name (sink : NSinkInterface) : String := sink.name

/-- The table `resource_keys`, indexed RES_AUDIO, RES_VIBRA, RES_LEDS, RES_BLIGHT. -/
def resource_keys : List String :=
  ["media.audio", "media.vibra", "media.leds", "media.backlight"]

/-- The array `sink_map[RES_COUNT]`. -/
structure SinkMap where
  audio : Option NSinkInterface
  vibra : Option NSinkInterface
  leds : Option NSinkInterface
  blight : Option NSinkInterface
  deriving DecidableEq, Repr

/-- The slots of `sink_map` in index order. -/
def SinkMap.slots (m : SinkMap) : List (Option NSinkInterface) :=
  [m.audio, m.vibra, m.leds, m.blight]

/-- The two statics of the plugin. -/
structure ResourceState where
  resource_map_enabled : Bool
  sink_map : SinkMap
  deriving DecidableEq, Repr

/-- The statics at program start: `resource_map_enabled = FALSE` and a zeroed
`sink_map`. -/
def resource_state_start : ResourceState :=
  { resource_map_enabled := false,
    sink_map := { audio := none, vibra := none, leds := none, blight := none } }

/-- The `for` loop of `lookup_sink_from_key` over the registered sinks. -/
def lookup_sink_loop (sinks : List NSinkInterface) (key : String) : Option NSinkInterface :=
  match sinks with
  | [] => none
  | sink :: rest =>
    if n_sink_interface_get_name sink = key then some sink else lookup_sink_loop rest key

/-- The registered sinks are what `n_core_get_sinks` returns. -/
def lookup_sink_from_key (sinks : List NSinkInterface) (key : Option String) :
    Option NSinkInterface :=
  match key with
  | none => none
  | some key => lookup_sink_loop sinks key

/-- The hook run after startup; `params` is what `n_plugin_get_params` returns. -/
def init_done_cb (st : ResourceState) (sinks : List NSinkInterface)
    (params : Option NProplist) : ResourceState :=
  if params.isNone || n_proplist_size params = 0 then st
  else
    let sink_map : SinkMap :=
      { audio := lookup_sink_from_key sinks (n_proplist_get_string params "media.audio"),
        vibra := lookup_sink_from_key sinks (n_proplist_get_string params "media.vibra"),
        leds := lookup_sink_from_key sinks (n_proplist_get_string params "media.leds"),
        blight := lookup_sink_from_key sinks (n_proplist_get_string params "media.backlight") }
    let has_one := sink_map.slots.any Option.isSome
    { resource_map_enabled := if has_one then true else st.resource_map_enabled,
      sink_map := sink_map }

/-- GLib `g_list_remove`: removes the first element equal to `data`, if any. -/
def g_list_remove (list : List NSinkInterface) (data : NSinkInterface) : List NSinkInterface :=
  match list with
  | [] => []
  | x :: rest => if x = data then rest else x :: g_list_remove rest data

/-- The array `enabled[]` after the first loop of `filter_sinks_cb`: zero from
`memset`, and the value of the flag where the key is present. -/
def filter_sinks_enabled (props : Option NProplist) : List Bool :=
  resource_keys.map (fun key =>
    if n_proplist_has_key props key then n_proplist_get_bool props key else false)

/-- The variable `force_enabled` after the first loop of `filter_sinks_cb`. -/
def filter_sinks_force_enabled (props : Option NProplist) : Bool :=
  resource_keys.any (fun key => n_proplist_has_key props key)

/-- The second loop of `filter_sinks_cb` over the slots and their decisions. -/
def filter_sinks_loop (force_enabled : Bool) :
    List (Option NSinkInterface × Bool) → List NSinkInterface → List NSinkInterface
  | [], sinks => sinks
  | (none, _) :: rest, sinks => filter_sinks_loop force_enabled rest sinks
  | (some sink, enabled) :: rest, sinks =>
    if force_enabled && !enabled then
      filter_sinks_loop force_enabled rest (g_list_remove sinks sink)
    else filter_sinks_loop force_enabled rest sinks

/-- The hook run per request: the new value of `filter->sinks`. -/
def filter_sinks_cb (st : ResourceState) (request : NRequest) (sinks : List NSinkInterface) :
    List NSinkInterface :=
  if !st.resource_map_enabled then sinks
  else
    let props := n_request_get_properties request
    let enabled := filter_sinks_enabled props
    let force_enabled := filter_sinks_force_enabled props
    filter_sinks_loop force_enabled (st.sink_map.slots.zip enabled) sinks

/-! ## Resource decisions as the specification words them -/

/-- A flag is present-and-true in the bag. -/
def flag_present_and_true (props : Option NProplist) (key : String) : Bool :=
  n_proplist_has_key props key && n_proplist_get_bool props key

/-- The mapped sinks whose flag is present-and-false or absent, in slot order. -/
def disabled_mapped_sinks (m : SinkMap) (props : Option NProplist) : List NSinkInterface :=
  (m.slots.zip resource_keys).filterMap (fun slot =>
    if flag_present_and_true props slot.2 then none else slot.1)

/-- The mapped sinks whose flag is present-and-true, in slot order. -/
def enabled_mapped_sinks (m : SinkMap) (props : Option NProplist) : List NSinkInterface :=
  (m.slots.zip resource_keys).filterMap (fun slot =>
    if flag_present_and_true props slot.2 then slot.1 else none)

/-! ## Sample sinks, tables and requests for the resource plugin -/

def sample_sink_gst : NSinkInterface := { handle := 1, name := "gst" }
def sample_sink_vibra : NSinkInterface := { handle := 2, name := "ffmemless" }
def sample_sink_mce : NSinkInterface := { handle := 3, name := "mce" }

/-- The registered sinks. -/
def sample_sinks : List NSinkInterface := [sample_sink_gst, sample_sink_vibra, sample_sink_mce]

/-- A configuration mapping audio to "gst" and vibra to "ffmemless". -/
def sample_params : NProplist :=
  [("media.audio", NValue.string "gst"), ("media.vibra", NValue.string "ffmemless")]

/-- A configuration mapping leds and backlight to the one sink "mce". -/
def sample_params_shared : NProplist :=
  [("media.leds", NValue.string "mce"), ("media.backlight", NValue.string "mce")]

/-- A request with media.audio = false. -/
def sample_request_audio_off : NRequest :=
  { name := some "sms", properties := some [("media.audio", NValue.bool false)] }

/-- A request with media.vibra = true only. -/
def sample_request_vibra_only : NRequest :=
  { name := some "sms", properties := some [("media.vibra", NValue.bool true)] }

/-- A request with media.leds = true only. -/
def sample_request_leds_only : NRequest :=
  { name := some "sms", properties := some [("media.leds", NValue.bool true)] }

end Ngfd

namespace Ngfd

/-! ## Lemmas on the property bag -/

theorem n_proplist_get_set_same (p : NProplist) (key : String) (v : NValue) :
    n_proplist_get (n_proplist_set p key v) key = some v := by
  induction p with
  | nil => simp [n_proplist_set, n_proplist_get]
  | cons kv rest ih =>
    obtain ⟨k, w⟩ := kv
    by_cases h : k = key
    · simp [n_proplist_set, n_proplist_get, h]
    · simp [n_proplist_set, n_proplist_get, h, ih]

/-! ## Lemmas on the dispatcher -/

theorem message_function_play (g : DBusInterfaceData) (L : List NRequest) (msg : DBusMessage)
    (h : is_play_call msg = true) :
    dbusif_message_function g L msg =
      ((dbusif_play_handler msg ((g.event_id + 1) % UINT32_MOD)).1,
        { event_id := (g.event_id + 1) % UINT32_MOD },
        (dbusif_play_handler msg ((g.event_id + 1) % UINT32_MOD)).2) := by
  simp only [is_play_call, Bool.and_eq_true, Bool.not_eq_true', beq_iff_eq,
    dbus_message_get_member] at h
  obtain ⟨⟨h1, h2⟩, h3⟩ := h
  simp [dbusif_message_function, h1, h2, h3, dbus_message_get_member]

theorem message_function_not_play_state (g : DBusInterfaceData) (L : List NRequest)
    (msg : DBusMessage) (h : is_play_call msg = false) :
    (dbusif_message_function g L msg).2.1 = g := by
  unfold dbusif_message_function
  simp only [dbus_message_get_member]
  split
  · split
    · rfl
    · split <;> rfl
  · rename_i hsig
    split
    · rfl
    · rename_i member hm
      split
      · rfl
      · rename_i hif
        split
        · rename_i hp
          exfalso
          simp [is_play_call, hsig, hm, hp, dbus_message_get_member] at h
          simp [h] at hif
        · split
          · rfl
          · split <;> rfl

theorem play_handler_ack_ids (msg : DBusMessage) (event_id : Nat) :
    ack_ids (dbusif_play_handler msg event_id).2 =
      if play_args_accepted msg then [event_id] else [] := by
  unfold dbusif_play_handler play_args_accepted dbus_message_iter_init
    dbus_message_iter_next dbus_message_iter_get_arg_type msg_get_properties
  rcases hargs : msg.args with _ | ⟨a, rest⟩
  · simp [ack_ids, dbusif_reply_error]
  · cases a with
    | array elems => simp [ack_ids, dbusif_reply_error, DBusArg.argType]
    | item i =>
      cases i <;> simp [ack_ids, dbusif_reply_error, DBusArg.argType, DBusItem.argType]
      rcases rest with _ | ⟨b, rest2⟩
      · simp [ack_ids, dbusif_reply_error]
      · cases b with
        | array elems => simp [ack_ids, dbusif_ack, DBusArg.argType]
        | item j =>
          cases j <;> simp [ack_ids, dbusif_reply_error, DBusArg.argType, DBusItem.argType]

/-- Ids acked to the Play messages of a sequence started with counter `c` lie in
`(c, c + n]`, `n` being the number of Play messages, and come in increasing order,
one per accepted Play. -/
theorem play_ack_ids_bounds (inputs : List Inbound) :
    ∀ g : DBusInterfaceData, g.event_id + count_play_calls inputs < UINT32_MOD →
      (∀ x ∈ play_ack_ids g inputs,
        g.event_id < x ∧ x ≤ g.event_id + count_play_calls inputs) ∧
      (play_ack_ids g inputs).Pairwise (· < ·) ∧
      (play_ack_ids g inputs).length = count_accepted_plays inputs := by
  induction inputs with
  | nil =>
    intro g _
    simp [play_ack_ids, count_accepted_plays]
  | cons i rest ih =>
    intro g hg
    by_cases hp : is_play_call i.msg = true
    · have hcount : count_play_calls (i :: rest) = count_play_calls rest + 1 := by
        simp [count_play_calls, List.filter_cons, hp]
      rw [hcount] at hg ⊢
      have hmod : (g.event_id + 1) % UINT32_MOD = g.event_id + 1 :=
        Nat.mod_eq_of_lt (by omega)
      have hstep := message_function_play g i.active_requests i.msg hp
      rw [hmod] at hstep
      have hih := ih { event_id := g.event_id + 1 } (by simp only; omega)
      obtain ⟨hb, hs, hl⟩ := hih
      simp only at hb
      have hids : play_ack_ids g (i :: rest) =
          (if play_args_accepted i.msg then [g.event_id + 1] else []) ++
            play_ack_ids { event_id := g.event_id + 1 } rest := by
        simp only [play_ack_ids, hstep, hp, if_true, play_handler_ack_ids]
      rw [hids]
      by_cases ha : play_args_accepted i.msg = true
      · simp only [ha, if_true, List.singleton_append]
        refine ⟨?_, ?_, ?_⟩
        · intro x hx
          rcases List.mem_cons.mp hx with hx | hx
          · subst hx; omega
          · have := hb x hx; omega
        · refine List.pairwise_cons.mpr ⟨?_, hs⟩
          intro x hx
          have := hb x hx; omega
        · simp [count_accepted_plays, List.filter_cons, hp, ha, hl]
      · simp only [ha, List.nil_append]
        refine ⟨?_, hs, ?_⟩
        · intro x hx
          have := hb x hx; omega
        · simp [count_accepted_plays, List.filter_cons, hp, ha, hl]
    · have hp0 : is_play_call i.msg = false := by simpa using hp
      have hcount : count_play_calls (i :: rest) = count_play_calls rest := by
        simp [count_play_calls, List.filter_cons, hp0]
      rw [hcount] at hg ⊢
      have hstate := message_function_not_play_state g i.active_requests i.msg hp0
      have hids : play_ack_ids g (i :: rest) = play_ack_ids g rest := by
        simp [play_ack_ids, hp0, hstate]
      rw [hids]
      obtain ⟨hb, hs, hl⟩ := ih g hg
      refine ⟨hb, hs, ?_⟩
      simp [count_accepted_plays, List.filter_cons, hp0, hl]

theorem play_handler_rejected (msg : DBusMessage) (event_id : Nat)
    (h : play_args_accepted msg = false) :
    dbusif_play_handler msg event_id =
      (DBusHandlerResult.HANDLED, [Effect.reply_error "Malformed method call."]) := by
  unfold play_args_accepted dbus_message_iter_init dbus_message_iter_next
    dbus_message_iter_get_arg_type at h
  unfold dbusif_play_handler dbus_message_iter_init dbus_message_iter_next msg_get_properties
  rcases hargs : msg.args with _ | ⟨a, rest⟩
  · simp [dbusif_reply_error]
  · rw [hargs] at h
    cases a with
    | array elems => simp [dbusif_reply_error]
    | item i =>
      cases i <;> simp [dbusif_reply_error]
      rcases rest with _ | ⟨b, rest2⟩
      · simp [dbusif_reply_error]
      · cases b with
        | array elems => simp [DBusArg.argType, DBusItem.argType] at h
        | item j => simp [dbusif_reply_error]

theorem play_handler_accepted (msg : DBusMessage) (event_id : Nat) (event : String)
    (elems : List DBusItem) (rest : List DBusArg)
    (hargs : msg.args = DBusArg.item (DBusItem.string event) :: DBusArg.array elems :: rest) :
    dbusif_play_handler msg event_id =
      (DBusHandlerResult.HANDLED,
        [Effect.ack event_id,
         Effect.play_request (n_request_new_with_event_and_properties event
          (n_proplist_set_uint (msg_get_properties_loop elems n_proplist_new)
            NGF_DBUS_PROPERTY event_id))]) := by
  simp [dbusif_play_handler, dbus_message_iter_init, dbus_message_iter_next, hargs,
    msg_get_properties, dbusif_ack]

theorem lookup_request_loop_none (L : List NRequest) (event_id : Nat)
    (h : ∀ r ∈ L, n_proplist_get_uint (n_request_get_properties r) NGF_DBUS_PROPERTY ≠ event_id) :
    dbusif_lookup_request_loop L event_id = none := by
  induction L with
  | nil => rfl
  | cons r rest ih =>
    have hr := h r (List.mem_cons_self _ _)
    have hrest := ih (fun x hx => h x (List.mem_cons_of_mem _ hx))
    unfold dbusif_lookup_request_loop
    cases hp : n_request_get_properties r with
    | none => simpa using hrest
    | some p =>
      rw [hp] at hr
      simp [hr, hrest]

theorem lookup_request_none (L : List NRequest) (event_id : Nat)
    (h : event_id = 0 ∨
      ∀ r ∈ L, n_proplist_get_uint (n_request_get_properties r) NGF_DBUS_PROPERTY ≠ event_id) :
    dbusif_lookup_request L event_id = none := by
  unfold dbusif_lookup_request
  by_cases h0 : event_id = 0
  · simp [h0]
  · rcases h with h | h
    · exact absurd h h0
    · simp [h0, lookup_request_loop_none L event_id h]

theorem stop_all_eq_map (L : List NRequest) :
    dbusif_stop_all L = L.map (fun r => Effect.stop_request r 0) := by
  induction L with
  | nil => rfl
  | cons r rest ih => simp [dbusif_stop_all, ih]

theorem message_function_stop (g : DBusInterfaceData) (L : List NRequest) (msg : DBusMessage)
    (h : is_stop_call msg = true) :
    dbusif_message_function g L msg =
      ((dbusif_stop_handler L msg).1, g, (dbusif_stop_handler L msg).2) := by
  simp only [is_stop_call, Bool.and_eq_true, Bool.not_eq_true', beq_iff_eq,
    dbus_message_get_member] at h
  obtain ⟨⟨h1, h2⟩, h3⟩ := h
  simp [dbusif_message_function, h1, h2, h3, dbus_message_get_member, NGF_DBUS_METHOD_STOP,
    NGF_DBUS_METHOD_PLAY]

theorem message_function_pause (g : DBusInterfaceData) (L : List NRequest) (msg : DBusMessage)
    (h : is_pause_call msg = true) :
    dbusif_message_function g L msg =
      ((dbusif_pause_handler L msg).1, g, (dbusif_pause_handler L msg).2) := by
  simp only [is_pause_call, Bool.and_eq_true, Bool.not_eq_true', beq_iff_eq,
    dbus_message_get_member] at h
  obtain ⟨⟨h1, h2⟩, h3⟩ := h
  simp [dbusif_message_function, h1, h2, h3, dbus_message_get_member, NGF_DBUS_METHOD_STOP,
    NGF_DBUS_METHOD_PLAY, NGF_DBUS_METHOD_PAUSE]

theorem get_uint_eq_iff (p : NProplist) (key : String) (event_id : Nat) (h : event_id ≠ 0) :
    n_proplist_get_uint (some p) key = event_id ↔
      n_proplist_get p key = some (NValue.uint event_id) := by
  unfold n_proplist_get_uint
  cases hget : n_proplist_get p key with
  | none => simp [hget, Ne.symm h]
  | some v =>
    cases v with
    | uint n => simp [hget]
    | string s => simp [hget, Ne.symm h]
    | int i => simp [hget, Ne.symm h]
    | bool b => simp [hget, Ne.symm h]

theorem lookup_request_loop_eq_find (L : List NRequest) (event_id : Nat) (h : event_id ≠ 0) :
    dbusif_lookup_request_loop L event_id = L.find? (fun r => request_stores_id r event_id) := by
  induction L with
  | nil => rfl
  | cons r rest ih =>
    unfold dbusif_lookup_request_loop
    cases hp : n_request_get_properties r with
    | none =>
      have hr : request_stores_id r event_id = false := by simp [request_stores_id, hp]
      simp [List.find?_cons, hr, ih]
    | some p =>
      by_cases hm : n_proplist_get_uint (some p) NGF_DBUS_PROPERTY = event_id
      · have hs := (get_uint_eq_iff p NGF_DBUS_PROPERTY event_id h).mp hm
        have hs2 : n_proplist_get p "dbus.event.id" = some (NValue.uint event_id) := hs
        have hr : request_stores_id r event_id = true := by
          simp [request_stores_id, hp, hs2]
        simp [List.find?_cons, hr, hm]
      · have hs : ¬ n_proplist_get p "dbus.event.id" = some (NValue.uint event_id) :=
          fun hc => hm ((get_uint_eq_iff p NGF_DBUS_PROPERTY event_id h).mpr hc)
        have hr : request_stores_id r event_id = false := by
          simp [request_stores_id, hp, hs]
        simp [List.find?_cons, hr, hm, ih]

theorem parse_dict_eq_spec (entry : DBusItem) (p : NProplist) :
    (msg_parse_dict entry p).2 =
      match spec_entry_write entry with
      | some kv => n_proplist_set p kv.1 kv.2
      | none => p := by
  cases entry with
  | dictEntry k v =>
    cases k with
    | string key =>
      cases v with
      | variant inner =>
        cases inner <;>
          simp [msg_parse_dict, msg_parse_variant, spec_entry_write, n_proplist_set_string,
            n_proplist_set_uint, n_proplist_set_int, n_proplist_set_bool]
      | _ => simp [msg_parse_dict, msg_parse_variant, spec_entry_write]
    | _ => simp [msg_parse_dict, spec_entry_write]
  | _ => simp [msg_parse_dict, spec_entry_write]

theorem get_properties_loop_eq_spec (array : List DBusItem) :
    ∀ p : NProplist, msg_get_properties_loop array p =
      spec_apply_writes p (array.filterMap spec_entry_write) := by
  induction array with
  | nil => intro p; rfl
  | cons entry rest ih =>
    intro p
    unfold msg_get_properties_loop
    rw [ih, parse_dict_eq_spec]
    cases hw : spec_entry_write entry with
    | none => simp [List.filterMap_cons, hw]
    | some kv =>
      obtain ⟨k, v⟩ := kv
      simp [List.filterMap_cons, hw, spec_apply_writes]

/-! ## Lemmas on the resource plugin -/

theorem filter_sinks_enabled_eq (props : Option NProplist) :
    filter_sinks_enabled props = resource_keys.map (flag_present_and_true props) := by
  unfold filter_sinks_enabled
  apply List.map_congr_left
  intro key _
  unfold flag_present_and_true
  cases n_proplist_has_key props key <;> simp

theorem filter_sinks_loop_not_forced (zs : List (Option NSinkInterface × Bool)) :
    ∀ sinks : List NSinkInterface, filter_sinks_loop false zs sinks = sinks := by
  induction zs with
  | nil => intro sinks; rfl
  | cons z rest ih =>
    intro sinks
    obtain ⟨slot, enabled⟩ := z
    cases slot with
    | none => simp [filter_sinks_loop, ih]
    | some sink => simp [filter_sinks_loop, ih]

theorem filter_sinks_loop_forced (f : String → Bool) (slots : List (Option NSinkInterface)) :
    ∀ (keys : List String) (sinks : List NSinkInterface),
      filter_sinks_loop true (slots.zip (keys.map f)) sinks =
        ((slots.zip keys).filterMap (fun slot => if f slot.2 then none else slot.1)).foldl
          g_list_remove sinks := by
  induction slots with
  | nil => intro keys sinks; simp [filter_sinks_loop]
  | cons slot rest ih =>
    intro keys sinks
    cases keys with
    | nil => simp [filter_sinks_loop]
    | cons key keys =>
      rw [List.map_cons, List.zip_cons_cons, List.zip_cons_cons, List.filterMap_cons]
      cases slot with
      | none =>
        cases hf : f key
        · simp only [filter_sinks_loop, Bool.false_eq_true, if_false]
          exact ih keys sinks
        · simp only [filter_sinks_loop, if_true]
          exact ih keys sinks
      | some sink =>
        cases hf : f key
        · simp only [filter_sinks_loop, Bool.false_eq_true, if_false, Bool.not_false,
            Bool.and_self, if_true, List.foldl_cons]
          exact ih keys (g_list_remove sinks sink)
        · simp only [filter_sinks_loop, if_true, Bool.not_true, Bool.and_false,
            Bool.false_eq_true, if_false]
          exact ih keys sinks

theorem g_list_remove_eq_filter (l : List NSinkInterface) (a : NSinkInterface) (h : l.Nodup) :
    g_list_remove l a = l.filter (fun x => decide (x ≠ a)) := by
  induction l with
  | nil => rfl
  | cons x rest ih =>
    have hx : x ∉ rest := (List.nodup_cons.mp h).1
    have hrest : rest.Nodup := (List.nodup_cons.mp h).2
    by_cases hxa : x = a
    · subst hxa
      simp only [g_list_remove, if_true, List.filter_cons, ne_eq, not_true_eq_false,
        decide_False, Bool.false_eq_true, if_false]
      symm
      apply List.filter_eq_self.mpr
      intro y hy
      have : y ≠ x := fun hyx => hx (hyx ▸ hy)
      simpa using this
    · simp [g_list_remove, List.filter_cons, hxa, ih hrest]

theorem foldl_remove_eq_filter (D : List NSinkInterface) :
    ∀ l : List NSinkInterface, l.Nodup →
      D.foldl g_list_remove l = l.filter (fun s => decide (s ∉ D)) := by
  induction D with
  | nil => intro l _; simp
  | cons a rest ih =>
    intro l hl
    have hl2 : (l.filter (fun x => decide (x ≠ a))).Nodup := hl.filter _
    rw [List.foldl_cons, g_list_remove_eq_filter l a hl, ih _ hl2, List.filter_filter]
    apply List.filter_congr
    intro s _
    by_cases hsa : s = a
    · simp [hsa]
    · by_cases hsr : s ∈ rest
      · simp [hsa, hsr]
      · simp [hsa, hsr]

theorem filter_sinks_cb_forced (st : ResourceState) (request : NRequest)
    (sinks : List NSinkInterface) (hen : st.resource_map_enabled = true)
    (hforce : filter_sinks_force_enabled (n_request_get_properties request) = true) :
    filter_sinks_cb st request sinks =
      (disabled_mapped_sinks st.sink_map (n_request_get_properties request)).foldl
        g_list_remove sinks := by
  unfold filter_sinks_cb disabled_mapped_sinks
  simp only [hen, hforce, filter_sinks_enabled_eq]
  exact filter_sinks_loop_forced _ _ _ _

theorem force_enabled_of_present (props : Option NProplist) (key : String)
    (hkey : key ∈ resource_keys) (hpresent : n_proplist_has_key props key = true) :
    filter_sinks_force_enabled props = true := by
  unfold filter_sinks_force_enabled
  exact List.any_eq_true.mpr ⟨key, hkey, hpresent⟩

theorem lookup_sink_loop_eq_find (sinks : List NSinkInterface) (key : String) :
    lookup_sink_loop sinks key =
      sinks.find? (fun sink => n_sink_interface_get_name sink == key) := by
  induction sinks with
  | nil => rfl
  | cons sink rest ih =>
    by_cases h : n_sink_interface_get_name sink = key
    · simp [lookup_sink_loop, List.find?_cons, h]
    · simp [lookup_sink_loop, List.find?_cons, h, ih]

theorem lookup_sink_from_key_eq (sinks : List NSinkInterface) (key : Option String) :
    lookup_sink_from_key sinks key =
      match key with
      | none => none
      | some name => sinks.find? (fun sink => n_sink_interface_get_name sink == name) := by
  cases key with
  | none => rfl
  | some name => simp [lookup_sink_from_key, lookup_sink_loop_eq_find]

theorem lookup_sink_isSome_iff (sinks : List NSinkInterface) (key : Option String) :
    (lookup_sink_from_key sinks key).isSome = true ↔
      ∃ name, key = some name ∧ ∃ sink ∈ sinks, n_sink_interface_get_name sink = name := by
  rw [lookup_sink_from_key_eq]
  cases key with
  | none => simp
  | some name => simp [List.find?_isSome]

theorem get_string_of_size_zero (params : Option NProplist) (key : String)
    (h : params = none ∨ n_proplist_size params = 0) :
    n_proplist_get_string params key = none := by
  cases params with
  | none => rfl
  | some p =>
    rcases h with h | h
    · cases h
    · have hp : p = [] := List.length_eq_zero.mp h
      subst hp
      rfl

theorem not_signal_of_has_interface (msg : DBusMessage)
    (h : dbus_message_has_interface msg NGF_DBUS_IFACE = true) :
    dbus_message_is_signal msg "org.freedesktop.DBus" "NameOwnerChanged" = false := by
  unfold dbus_message_has_interface at h
  unfold dbus_message_is_signal
  cases hi : msg.interface with
  | none => simp [hi] at h
  | some i =>
    simp only [hi, beq_iff_eq] at h
    subst h
    by_cases ht : msg.msgType = DBusMessageType.SIGNAL
    · cases hm : msg.member with
      | none => simp [ht]
      | some n =>
        have hne : (NGF_DBUS_IFACE == "org.freedesktop.DBus") = false := by decide
        simp [ht, hne]
    · simp [ht]

theorem n_proplist_get_set (p : NProplist) (key k : String) (v : NValue) :
    n_proplist_get (n_proplist_set p key v) k =
      if k = key then some v else n_proplist_get p k := by
  induction p with
  | nil =>
    by_cases h : k = key
    · simp [n_proplist_set, n_proplist_get, h]
    · have h2 : ¬ key = k := fun e => h e.symm
      simp [n_proplist_set, n_proplist_get, h, h2]
  | cons kv rest ih =>
    obtain ⟨k0, w⟩ := kv
    by_cases h0 : k0 = key
    · subst h0
      by_cases h : k = k0
      · simp [n_proplist_set, n_proplist_get, h]
      · have h2 : ¬ k0 = k := fun e => h e.symm
        simp [n_proplist_set, n_proplist_get, h, h2]
    · by_cases h1 : k0 = k
      · subst h1
        simp [n_proplist_set, n_proplist_get, h0]
      · simp [n_proplist_set, n_proplist_get, h0, h1, ih]

theorem mem_keys_set (p : NProplist) (key : String) (v : NValue) (x : String) :
    x ∈ n_proplist_keys (n_proplist_set p key v) ↔ x = key ∨ x ∈ n_proplist_keys p := by
  induction p with
  | nil => simp [n_proplist_set, n_proplist_keys]
  | cons kv rest ih =>
    obtain ⟨k0, w⟩ := kv
    by_cases h0 : k0 = key
    · subst h0
      simp [n_proplist_set, n_proplist_keys]
    · have ih2 : x ∈ List.map Prod.fst (n_proplist_set rest key v) ↔
          x = key ∨ x ∈ List.map Prod.fst rest := ih
      simp only [n_proplist_set, h0, if_false, n_proplist_keys, List.map_cons, List.mem_cons, ih2]
      tauto

theorem nodup_keys_set (p : NProplist) (key : String) (v : NValue)
    (h : (n_proplist_keys p).Nodup) : (n_proplist_keys (n_proplist_set p key v)).Nodup := by
  induction p with
  | nil => simp [n_proplist_set, n_proplist_keys]
  | cons kv rest ih =>
    obtain ⟨k0, w⟩ := kv
    have hk : k0 ∉ n_proplist_keys rest := (List.nodup_cons.mp h).1
    have hr : (n_proplist_keys rest).Nodup := (List.nodup_cons.mp h).2
    by_cases h0 : k0 = key
    · subst h0
      simpa [n_proplist_set, n_proplist_keys] using h
    · have hnew : k0 ∉ n_proplist_keys (n_proplist_set rest key v) := by
        rw [mem_keys_set]
        rintro (e | e)
        · exact h0 e
        · exact hk e
      have hcons : n_proplist_keys (n_proplist_set ((k0, w) :: rest) key v) =
          k0 :: n_proplist_keys (n_proplist_set rest key v) := by
        simp [n_proplist_set, h0, n_proplist_keys]
      rw [hcons]
      exact List.nodup_cons.mpr ⟨hnew, ih hr⟩

theorem nodup_keys_loop (array : List DBusItem) :
    ∀ p : NProplist, (n_proplist_keys p).Nodup →
      (n_proplist_keys (msg_get_properties_loop array p)).Nodup := by
  induction array with
  | nil => intro p h; exact h
  | cons entry rest ih =>
    intro p h
    unfold msg_get_properties_loop
    apply ih
    rw [parse_dict_eq_spec]
    cases spec_entry_write entry with
    | none => exact h
    | some kv => exact nodup_keys_set p kv.1 kv.2 h

theorem mem_iff_get (p : NProplist) (k : String) (v : NValue)
    (h : (n_proplist_keys p).Nodup) : (k, v) ∈ p ↔ n_proplist_get p k = some v := by
  induction p with
  | nil => simp [n_proplist_get]
  | cons kv rest ih =>
    obtain ⟨k0, w⟩ := kv
    have hk : k0 ∉ n_proplist_keys rest := (List.nodup_cons.mp h).1
    have hr : (n_proplist_keys rest).Nodup := (List.nodup_cons.mp h).2
    by_cases h0 : k0 = k
    · subst h0
      have hno : (k0, v) ∉ rest := by
        intro hm
        exact hk (List.mem_map_of_mem Prod.fst hm)
      simp only [List.mem_cons, Prod.mk.injEq, true_and, n_proplist_get, if_true, Option.some.injEq,
        hno, or_false]
      exact eq_comm
    · have h1 : ¬ k = k0 := fun e => h0 e.symm
      simp [n_proplist_get, h0, h1, ih hr]

theorem perm_of_get_eq (p q : NProplist) (hp : (n_proplist_keys p).Nodup)
    (hq : (n_proplist_keys q).Nodup)
    (h : ∀ k, n_proplist_get p k = n_proplist_get q k) : p.Perm q := by
  have hp2 : p.Nodup := List.Nodup.of_map Prod.fst hp
  have hq2 : q.Nodup := List.Nodup.of_map Prod.fst hq
  rw [List.perm_ext_iff_of_nodup hp2 hq2]
  rintro ⟨k, v⟩
  rw [mem_iff_get p k v hp, mem_iff_get q k v hq, h k]

theorem get_properties_loop_cons (entry : DBusItem) (rest : List DBusItem) (p : NProplist) :
    msg_get_properties_loop (entry :: rest) p =
      msg_get_properties_loop rest (msg_parse_dict entry p).2 := rfl

/-- Away from the reserved key, the bag decoded from an array is determined by
the entries of the array that are not entries for the reserved key. -/
theorem loop_get_away_from_reserved (array : List DBusItem) :
    ∀ p q : NProplist,
      (∀ k, k ≠ "dbus.event.id" → n_proplist_get p k = n_proplist_get q k) →
      ∀ k, k ≠ "dbus.event.id" →
        n_proplist_get (msg_get_properties_loop array p) k =
          n_proplist_get
            (msg_get_properties_loop (array.filter (fun e => !is_reserved_entry e)) q) k := by
  induction array with
  | nil => intro p q h k hk; exact h k hk
  | cons entry rest ih =>
    intro p q h k hk
    by_cases hres : is_reserved_entry entry = true
    · have hfilter : (entry :: rest).filter (fun e => !is_reserved_entry e) =
          rest.filter (fun e => !is_reserved_entry e) := by
        simp [List.filter_cons, hres]
      rw [hfilter, get_properties_loop_cons]
      apply ih _ q _ k hk
      intro k2 hk2
      rw [parse_dict_eq_spec]
      cases hw : spec_entry_write entry with
      | none => exact h k2 hk2
      | some kv =>
        have hkey : kv.1 = "dbus.event.id" := by
          cases entry with
          | dictEntry dk dv =>
            cases dk with
            | string key =>
              have hkeq : key = "dbus.event.id" := by simpa [is_reserved_entry] using hres
              cases dv with
              | variant inner =>
                cases inner <;> simp [spec_entry_write] at hw <;> rw [← hw] <;> exact hkeq
              | _ => simp [spec_entry_write] at hw
            | _ => simp [is_reserved_entry] at hres
          | _ => simp [is_reserved_entry] at hres
        simp only []
        rw [n_proplist_get_set, hkey, if_neg hk2]
        exact h k2 hk2
    · have hres2 : is_reserved_entry entry = false := by simpa using hres
      have hfilter : (entry :: rest).filter (fun e => !is_reserved_entry e) =
          entry :: rest.filter (fun e => !is_reserved_entry e) := by
        simp [List.filter_cons, hres2]
      rw [hfilter, get_properties_loop_cons, get_properties_loop_cons]
      apply ih _ _ _ k hk
      intro k2 hk2
      rw [parse_dict_eq_spec, parse_dict_eq_spec]
      cases hw : spec_entry_write entry with
      | none => exact h k2 hk2
      | some kv =>
        simp only []
        rw [n_proplist_get_set, n_proplist_get_set]
        by_cases hkk : k2 = kv.1
        · simp [hkk]
        · simp [hkk, h k2 hk2]

theorem final_bag_get_eq (elemsA elemsB : List DBusItem) (event_id : Nat)
    (hdiff : elemsA.filter (fun e => !is_reserved_entry e) =
      elemsB.filter (fun e => !is_reserved_entry e)) (key : String) :
    n_proplist_get (n_proplist_set (msg_get_properties_loop elemsA n_proplist_new)
        "dbus.event.id" (NValue.uint event_id)) key =
      n_proplist_get (n_proplist_set (msg_get_properties_loop elemsB n_proplist_new)
        "dbus.event.id" (NValue.uint event_id)) key := by
  rw [n_proplist_get_set, n_proplist_get_set]
  by_cases hk : key = "dbus.event.id"
  · simp [hk]
  · rw [if_neg hk, if_neg hk,
      loop_get_away_from_reserved elemsA n_proplist_new n_proplist_new (fun _ _ => rfl) key hk,
      loop_get_away_from_reserved elemsB n_proplist_new n_proplist_new (fun _ _ => rfl) key hk,
      hdiff]

theorem final_bag_nodup_keys (elems : List DBusItem) (event_id : Nat) :
    (n_proplist_keys (n_proplist_set (msg_get_properties_loop elems n_proplist_new)
      "dbus.event.id" (NValue.uint event_id))).Nodup := by
  apply nodup_keys_set
  apply nodup_keys_loop
  simp [n_proplist_keys, n_proplist_new]

/-! ## Shapes of the handler traces -/

theorem play_handler_shape (msg : DBusMessage) (event_id : Nat) :
    (∃ request, dbusif_play_handler msg event_id =
        (DBusHandlerResult.HANDLED, [Effect.ack event_id, Effect.play_request request])) ∨
      dbusif_play_handler msg event_id =
        (DBusHandlerResult.HANDLED, [Effect.reply_error "Malformed method call."]) := by
  by_cases h : play_args_accepted msg = true
  · left
    unfold play_args_accepted dbus_message_iter_init dbus_message_iter_next
      dbus_message_iter_get_arg_type at h
    rcases hargs : msg.args with _ | ⟨a, rest⟩
    · simp [hargs] at h
    · rw [hargs] at h
      cases a with
      | array elems => simp [DBusArg.argType] at h
      | item i =>
        cases i <;> simp [DBusArg.argType, DBusItem.argType] at h
        rename_i event
        rcases rest with _ | ⟨b, rest2⟩
        · simp at h
        · cases b with
          | item j => cases j <;> simp [DBusArg.argType, DBusItem.argType] at h
          | array elems =>
            exact ⟨_, play_handler_accepted msg event_id event elems rest2 hargs⟩
  · right
    exact play_handler_rejected msg event_id (by simpa using h)

theorem stop_handler_shape (L : List NRequest) (msg : DBusMessage) :
    (∃ text, dbusif_stop_handler L msg =
        (DBusHandlerResult.HANDLED, [Effect.reply_error text])) ∨
      (∃ request event_id, dbusif_stop_handler L msg =
        (DBusHandlerResult.HANDLED,
          [Effect.pause_request request, Effect.stop_request request RINGTONE_STOP_TIMEOUT,
           Effect.ack event_id])) ∨
      (∃ request event_id, dbusif_stop_handler L msg =
        (DBusHandlerResult.HANDLED, [Effect.stop_request request 0, Effect.ack event_id])) := by
  cases hargs : dbus_message_get_args_uint32 msg with
  | none =>
    left
    exact ⟨"Malformed method call.", by simp [dbusif_stop_handler, hargs, dbusif_reply_error]⟩
  | some event_id =>
    cases hfound : dbusif_lookup_request L event_id with
    | none =>
      left
      exact ⟨"No event with given id found.",
        by simp [dbusif_stop_handler, hargs, hfound, dbusif_reply_error]⟩
    | some request =>
      by_cases hname : n_request_get_name request = some "ringtone"
      · right; left
        exact ⟨request, event_id, by simp [dbusif_stop_handler, hargs, hfound, hname, dbusif_ack]⟩
      · right; right
        exact ⟨request, event_id, by simp [dbusif_stop_handler, hargs, hfound, hname, dbusif_ack]⟩

theorem pause_handler_shape (L : List NRequest) (msg : DBusMessage) :
    (∃ text, dbusif_pause_handler L msg =
        (DBusHandlerResult.HANDLED, [Effect.reply_error text])) ∨
      (∃ request event_id, dbusif_pause_handler L msg =
        (DBusHandlerResult.HANDLED, [Effect.pause_request request, Effect.ack event_id])) ∨
      (∃ request event_id, dbusif_pause_handler L msg =
        (DBusHandlerResult.HANDLED, [Effect.play_request request, Effect.ack event_id])) := by
  cases hargs : dbus_message_get_args_uint32_boolean msg with
  | none =>
    left
    exact ⟨"Malformed method call.", by simp [dbusif_pause_handler, hargs, dbusif_reply_error]⟩
  | some args =>
    obtain ⟨event_id, pause⟩ := args
    cases hfound : dbusif_lookup_request L event_id with
    | none =>
      left
      exact ⟨"No event with given id found.",
        by simp [dbusif_pause_handler, hargs, hfound, dbusif_reply_error]⟩
    | some request =>
      cases pause
      · right; right
        exact ⟨request, event_id, by simp [dbusif_pause_handler, hargs, hfound, dbusif_ack]⟩
      · right; left
        exact ⟨request, event_id, by simp [dbusif_pause_handler, hargs, hfound, dbusif_ack]⟩

/-! ## Claims -/

/-- C1: starting from the freshly initialized handler (counter 0), for every
sequence of inbound messages with fewer than 2^32 Play messages, the ids acked
to the accepted Play messages are strictly increasing in arrival order, pairwise
distinct and never 0; there is one such id per accepted Play. -/
theorem C1_play_ids_strictly_increasing (inputs : List Inbound)
    (h : count_play_calls inputs < 2 ^ 32) :
    (play_ack_ids dbusif_initialize inputs).Pairwise (· < ·) ∧
      (play_ack_ids dbusif_initialize inputs).Nodup ∧
      0 ∉ play_ack_ids dbusif_initialize inputs ∧
      (play_ack_ids dbusif_initialize inputs).length = count_accepted_plays inputs := by
  have hb := play_ack_ids_bounds inputs dbusif_initialize
    (by simpa [ dbusif_initialize, UINT32_MOD] using h)
  obtain ⟨hb, hs, hl⟩ := hb
  refine ⟨hs, ?_, ?_, hl⟩
  · exact hs.imp (fun hlt => Nat.ne_of_lt hlt)
  · intro h0
    have := hb 0 h0
    omega

/-- C1 at a concrete sequence: Play, malformed Play, Stop, Play. -/
theorem C1_play_ids_strictly_increasing_witness :
    count_play_calls sample_inputs < 2 ^ 32 ∧
      ((play_ack_ids dbusif_initialize sample_inputs).Pairwise (· < ·) ∧
        (play_ack_ids dbusif_initialize sample_inputs).Nodup ∧
        0 ∉ play_ack_ids dbusif_initialize sample_inputs ∧
        (play_ack_ids dbusif_initialize sample_inputs).length =
          count_accepted_plays sample_inputs) :=
  ⟨by decide, C1_play_ids_strictly_increasing sample_inputs (by decide)⟩

/-- C2: for every accepted Play (event name a string, then an array) the trace
is exactly one ack carrying the newly allocated id followed by exactly one engine
play call; the played request is built from the event name and the decoded
property bag extended with "dbus.event.id" set to that same id. -/
theorem C2_play_ack_then_engine_play (g : DBusInterfaceData) (L : List NRequest)
    (msg : DBusMessage) (event : String) (elems : List DBusItem) (rest : List DBusArg)
    (hplay : is_play_call msg = true)
    (hargs : msg.args = DBusArg.item (DBusItem.string event) :: DBusArg.array elems :: rest) :
    ∃ bag : NProplist,
      msg_get_properties (dbus_message_iter_next (dbus_message_iter_init msg)) = some bag ∧
      (dbusif_message_function g L msg).2.1.event_id = (g.event_id + 1) % UINT32_MOD ∧
      (dbusif_message_function g L msg).2.2 =
        [Effect.ack ((g.event_id + 1) % UINT32_MOD),
         Effect.play_request
          { name := some event,
            properties := some (n_proplist_set bag "dbus.event.id"
              (NValue.uint ((g.event_id + 1) % UINT32_MOD))) }] ∧
      n_proplist_get (n_proplist_set bag "dbus.event.id"
        (NValue.uint ((g.event_id + 1) % UINT32_MOD))) "dbus.event.id" =
          some (NValue.uint ((g.event_id + 1) % UINT32_MOD)) ∧
      ((dbusif_message_function g L msg).2.2.filter Effect.isAck).length = 1 ∧
      ((dbusif_message_function g L msg).2.2.filter Effect.isEngineCall).length = 1 := by
  refine ⟨msg_get_properties_loop elems n_proplist_new, ?_, ?_, ?_, ?_, ?_, ?_⟩
  · simp [dbus_message_iter_init, dbus_message_iter_next, hargs, msg_get_properties]
  · rw [message_function_play g L msg hplay]
  · rw [message_function_play g L msg hplay, play_handler_accepted msg _ event elems rest hargs]
    rfl
  · exact n_proplist_get_set_same _ _ _
  · rw [message_function_play g L msg hplay, play_handler_accepted msg _ event elems rest hargs]
    simp [Effect.isAck]
  · rw [message_function_play g L msg hplay, play_handler_accepted msg _ event elems rest hargs]
    simp [Effect.isEngineCall, Effect.isPlay, Effect.isPause, Effect.isStop]

/-- C2 at the call Play ("ringtone", {"media.audio": true, "volume": 7}) in the
initial state. -/
theorem C2_play_ack_then_engine_play_witness :
    is_play_call sample_play_ringtone = true ∧
      ∃ bag : NProplist,
        msg_get_properties
          (dbus_message_iter_next (dbus_message_iter_init sample_play_ringtone)) = some bag ∧
        (dbusif_message_function dbusif_initialize [] sample_play_ringtone).2.1.event_id =
          ( dbusif_initialize.event_id + 1) % UINT32_MOD ∧
        (dbusif_message_function dbusif_initialize [] sample_play_ringtone).2.2 =
          [Effect.ack (( dbusif_initialize.event_id + 1) % UINT32_MOD),
           Effect.play_request
            { name := some "ringtone",
              properties := some (n_proplist_set bag "dbus.event.id"
                (NValue.uint (( dbusif_initialize.event_id + 1) % UINT32_MOD))) }] ∧
        n_proplist_get (n_proplist_set bag "dbus.event.id"
          (NValue.uint (( dbusif_initialize.event_id + 1) % UINT32_MOD))) "dbus.event.id" =
            some (NValue.uint (( dbusif_initialize.event_id + 1) % UINT32_MOD)) ∧
        ((dbusif_message_function dbusif_initialize [] sample_play_ringtone).2.2.filter
          Effect.isAck).length = 1 ∧
        ((dbusif_message_function dbusif_initialize [] sample_play_ringtone).2.2.filter
          Effect.isEngineCall).length = 1 :=
  ⟨by decide,
    C2_play_ack_then_engine_play dbusif_initialize [] sample_play_ringtone "ringtone" _ [] (by decide)
      rfl⟩

/-- C3: a Play message whose first argument is not a string, or whose following
argument is not an array, gets exactly one error reply "Malformed method call.",
no ack, and causes no engine call. -/
theorem C3_malformed_play_error_only (g : DBusInterfaceData) (L : List NRequest)
    (msg : DBusMessage) (hplay : is_play_call msg = true)
    (hbad : dbus_message_iter_get_arg_type (dbus_message_iter_init msg) ≠ DBusType.STRING ∨
      dbus_message_iter_get_arg_type (dbus_message_iter_next (dbus_message_iter_init msg)) ≠
        DBusType.ARRAY) :
    (dbusif_message_function g L msg).2.2 = [Effect.reply_error "Malformed method call."] ∧
      (dbusif_message_function g L msg).1 = DBusHandlerResult.HANDLED ∧
      ((dbusif_message_function g L msg).2.2.filter Effect.isError).length = 1 ∧
      (dbusif_message_function g L msg).2.2.filter Effect.isAck = [] ∧
      (dbusif_message_function g L msg).2.2.filter Effect.isEngineCall = [] := by
  have hrej : play_args_accepted msg = false := by
    unfold play_args_accepted
    rcases hbad with h | h <;> simp [h]
  rw [message_function_play g L msg hplay, play_handler_rejected msg _ hrej]
  simp [Effect.isError, Effect.isAck, Effect.isEngineCall, Effect.isPlay, Effect.isPause,
    Effect.isStop]

/-- C3 at a Play call whose first argument is a uint32. -/
theorem C3_malformed_play_error_only_witness :
    is_play_call sample_play_malformed = true ∧
      (dbusif_message_function dbusif_initialize [] sample_play_malformed).2.2 =
        [Effect.reply_error "Malformed method call."] ∧
      (dbusif_message_function dbusif_initialize [] sample_play_malformed).2.2.filter
        Effect.isEngineCall = [] :=
  ⟨by decide,
    (C3_malformed_play_error_only dbusif_initialize [] sample_play_malformed (by decide)
      (Or.inl (by decide))).1,
    (C3_malformed_play_error_only dbusif_initialize [] sample_play_malformed (by decide)
      (Or.inl (by decide))).2.2.2.2⟩

/-- C4, as stated, fails: the malformed Play of `sample_play_malformed`, handled in
the initial state, leaves the counter at 1 instead of 0, and the next accepted
Play is acked with 2 although it would have been acked with 1. -/
theorem C4_counterexample :
    is_play_call sample_play_malformed = true ∧
      play_args_accepted sample_play_malformed = false ∧
      (dbusif_message_function dbusif_initialize [] sample_play_malformed).2.2 =
        [Effect.reply_error "Malformed method call."] ∧
      (dbusif_message_function dbusif_initialize [] sample_play_malformed).2.1.event_id ≠
        dbusif_initialize.event_id ∧
      ack_ids (dbusif_message_function
        (dbusif_message_function dbusif_initialize [] sample_play_malformed).2.1 []
        sample_play_alarm).2.2 = [2] ∧
      ack_ids (dbusif_message_function dbusif_initialize [] sample_play_alarm).2.2 = [1] := by
  decide

/-- C4 (amended): a malformed Play message is not acked but does consume a
correlation id: the dispatcher pre-increments the counter before the arguments
are checked, so the counter after handling is the counter before plus one
(modulo 2^32), and the next accepted Play is acked with the id one past the id it
would have received had the malformed message never arrived. -/
theorem C4_malformed_play_consumes_id (g : DBusInterfaceData) (L L2 : List NRequest)
    (msg msg2 : DBusMessage) (hplay : is_play_call msg = true)
    (hbad : play_args_accepted msg = false)
    (hplay2 : is_play_call msg2 = true) (hok2 : play_args_accepted msg2 = true) :
    (dbusif_message_function g L msg).2.1.event_id = (g.event_id + 1) % UINT32_MOD ∧
      ack_ids (dbusif_message_function g L msg).2.2 = [] ∧
      ack_ids (dbusif_message_function (dbusif_message_function g L msg).2.1 L2 msg2).2.2 =
        [((g.event_id + 1) % UINT32_MOD + 1) % UINT32_MOD] ∧
      ack_ids (dbusif_message_function g L2 msg2).2.2 = [(g.event_id + 1) % UINT32_MOD] := by
  refine ⟨?_, ?_, ?_, ?_⟩
  · rw [message_function_play g L msg hplay]
  · rw [message_function_play g L msg hplay, play_handler_ack_ids, hbad]
    simp
  · rw [message_function_play _ L2 msg2 hplay2, play_handler_ack_ids, hok2,
      message_function_play g L msg hplay]
    simp
  · rw [message_function_play g L2 msg2 hplay2, play_handler_ack_ids, hok2]
    simp

/-- C4 (amended) at a malformed Play followed by Play ("alarm", {}). -/
theorem C4_malformed_play_consumes_id_witness :
    is_play_call sample_play_malformed = true ∧
      play_args_accepted sample_play_malformed = false ∧
      is_play_call sample_play_alarm = true ∧
      play_args_accepted sample_play_alarm = true ∧
      (dbusif_message_function dbusif_initialize [] sample_play_malformed).2.1.event_id =
        ( dbusif_initialize.event_id + 1) % UINT32_MOD ∧
      ack_ids (dbusif_message_function dbusif_initialize [] sample_play_malformed).2.2 = [] ∧
      ack_ids (dbusif_message_function
        (dbusif_message_function dbusif_initialize [] sample_play_malformed).2.1 []
        sample_play_alarm).2.2 =
          [(( dbusif_initialize.event_id + 1) % UINT32_MOD + 1) % UINT32_MOD] ∧
      ack_ids (dbusif_message_function dbusif_initialize [] sample_play_alarm).2.2 =
        [( dbusif_initialize.event_id + 1) % UINT32_MOD] :=
  ⟨by decide, by decide, by decide, by decide,
    C4_malformed_play_consumes_id dbusif_initialize [] [] sample_play_malformed
      sample_play_alarm (by decide) (by decide) (by decide) (by decide)⟩

/-- C5: for every active-request list and every well-formed Stop (id) or
Pause (id, p) whose id is 0 or equals the stored correlation property of no
active request, the whole effect trace of the handler is one error reply "No
event with given id found.": no ack is sent and no engine pause, play or stop
call is made. -/
theorem C5_unknown_id_error_only (L : List NRequest) (event_id : Nat)
    (hmiss : event_id = 0 ∨
      ∀ r ∈ L, n_proplist_get_uint (n_request_get_properties r) "dbus.event.id" ≠ event_id) :
    (∀ msg : DBusMessage, dbus_message_get_args_uint32 msg = some event_id →
      dbusif_stop_handler L msg =
        (DBusHandlerResult.HANDLED, [Effect.reply_error "No event with given id found."])) ∧
    (∀ (msg : DBusMessage) (pause : Bool),
      dbus_message_get_args_uint32_boolean msg = some (event_id, pause) →
      dbusif_pause_handler L msg =
        (DBusHandlerResult.HANDLED, [Effect.reply_error "No event with given id found."])) := by
  have hnone : dbusif_lookup_request L event_id = none := lookup_request_none L event_id hmiss
  refine ⟨?_, ?_⟩
  · intro msg hmsg
    simp [dbusif_stop_handler, hmsg, hnone, dbusif_reply_error]
  · intro msg pause hmsg
    simp [dbusif_pause_handler, hmsg, hnone, dbusif_reply_error]

/-- C5 at Stop (7) and Pause (7, true) with active requests tagged 1 and 2 and
one untagged request. -/
theorem C5_unknown_id_error_only_witness :
    (∀ r ∈ [sample_request_ringtone, sample_request_alarm, sample_request_untagged],
        n_proplist_get_uint (n_request_get_properties r) "dbus.event.id" ≠ 7) ∧
      dbusif_stop_handler [sample_request_ringtone, sample_request_alarm,
          sample_request_untagged] (sample_stop 7) =
        (DBusHandlerResult.HANDLED, [Effect.reply_error "No event with given id found."]) ∧
      dbusif_pause_handler [sample_request_ringtone, sample_request_alarm,
          sample_request_untagged] (sample_pause 7 true) =
        (DBusHandlerResult.HANDLED, [Effect.reply_error "No event with given id found."]) :=
  ⟨by decide,
    (C5_unknown_id_error_only [sample_request_ringtone, sample_request_alarm,
      sample_request_untagged] 7 (Or.inr (by decide))).1 (sample_stop 7) rfl,
    (C5_unknown_id_error_only [sample_request_ringtone, sample_request_alarm,
      sample_request_untagged] 7 (Or.inr (by decide))).2 (sample_pause 7 true) true rfl⟩

/-- C6, as stated, fails: for Stop (1) resolving to the active request named
"ringtone", the handler makes no stop call carrying delay 0; its one stop call is
made right after the pause call, in the same invocation, and carries delay 200. -/
theorem C6_counterexample :
    dbus_message_get_args_uint32 (sample_stop 1) = some 1 ∧
      dbusif_lookup_request [sample_request_ringtone, sample_request_alarm] 1 =
        some sample_request_ringtone ∧
      n_request_get_name sample_request_ringtone = some "ringtone" ∧
      (dbusif_stop_handler [sample_request_ringtone, sample_request_alarm]
        (sample_stop 1)).2.filter Effect.isEngineCall ≠
          [Effect.pause_request sample_request_ringtone,
           Effect.stop_request sample_request_ringtone 0] ∧
      Effect.stop_request sample_request_ringtone 0 ∉
        (dbusif_stop_handler [sample_request_ringtone, sample_request_alarm]
          (sample_stop 1)).2 ∧
      (dbusif_stop_handler [sample_request_ringtone, sample_request_alarm]
        (sample_stop 1)).2 =
          [Effect.pause_request sample_request_ringtone,
           Effect.stop_request sample_request_ringtone 200,
           Effect.ack 1] := by
  decide

/-- C6 (amended): for every well-formed Stop (id) whose id resolves to an active
request named "ringtone", the handler makes exactly one engine pause call on that
request, followed in the same invocation by exactly one engine stop call on that
request carrying delay 200 (the wait is handed to the engine as the timeout
argument), makes no other engine call, and then acks with id. -/
theorem C6_ringtone_stop_pause_then_delayed_stop (L : List NRequest) (msg : DBusMessage)
    (event_id : Nat) (request : NRequest)
    (hargs : dbus_message_get_args_uint32 msg = some event_id)
    (hfound : dbusif_lookup_request L event_id = some request)
    (hname : n_request_get_name request = some "ringtone") :
    dbusif_stop_handler L msg =
        (DBusHandlerResult.HANDLED,
          [Effect.pause_request request, Effect.stop_request request 200,
           Effect.ack event_id]) ∧
      (dbusif_stop_handler L msg).2.filter Effect.isEngineCall =
        [Effect.pause_request request, Effect.stop_request request RINGTONE_STOP_TIMEOUT] ∧
      ack_ids (dbusif_stop_handler L msg).2 = [event_id] := by
  have h : dbusif_stop_handler L msg =
      (DBusHandlerResult.HANDLED,
        [Effect.pause_request request, Effect.stop_request request 200,
         Effect.ack event_id]) := by
    simp [dbusif_stop_handler, hargs, hfound, hname, dbusif_ack, RINGTONE_STOP_TIMEOUT]
  refine ⟨h, ?_, ?_⟩
  · rw [h]
    simp [Effect.isEngineCall, Effect.isPlay, Effect.isPause, Effect.isStop,
      RINGTONE_STOP_TIMEOUT]
  · rw [h]
    simp [ack_ids]

/-- C6 (amended) at Stop (1) with the "ringtone" request active. -/
theorem C6_ringtone_stop_pause_then_delayed_stop_witness :
    dbus_message_get_args_uint32 (sample_stop 1) = some 1 ∧
      dbusif_lookup_request [sample_request_ringtone, sample_request_alarm] 1 =
        some sample_request_ringtone ∧
      n_request_get_name sample_request_ringtone = some "ringtone" ∧
      dbusif_stop_handler [sample_request_ringtone, sample_request_alarm] (sample_stop 1) =
        (DBusHandlerResult.HANDLED,
          [Effect.pause_request sample_request_ringtone,
           Effect.stop_request sample_request_ringtone 200,
           Effect.ack 1]) :=
  ⟨by decide, by decide, by decide,
    (C6_ringtone_stop_pause_then_delayed_stop [sample_request_ringtone, sample_request_alarm]
      (sample_stop 1) 1 sample_request_ringtone (by decide) (by decide) (by decide)).1⟩

/-- C7: for every well-formed Stop (id) whose id resolves to an active request
whose name is not "ringtone" (a request without a name included), the handler
makes exactly one engine call, stop (request, 0), no pause call, and then sends
exactly one ack carrying id. -/
theorem C7_other_stop_immediate (L : List NRequest) (msg : DBusMessage)
    (event_id : Nat) (request : NRequest)
    (hargs : dbus_message_get_args_uint32 msg = some event_id)
    (hfound : dbusif_lookup_request L event_id = some request)
    (hname : n_request_get_name request ≠ some "ringtone") :
    dbusif_stop_handler L msg =
        (DBusHandlerResult.HANDLED, [Effect.stop_request request 0, Effect.ack event_id]) ∧
      (dbusif_stop_handler L msg).2.filter Effect.isEngineCall =
        [Effect.stop_request request 0] ∧
      (dbusif_stop_handler L msg).2.filter Effect.isPause = [] ∧
      (dbusif_stop_handler L msg).2.filter Effect.isAck = [Effect.ack event_id] := by
  have h : dbusif_stop_handler L msg =
      (DBusHandlerResult.HANDLED, [Effect.stop_request request 0, Effect.ack event_id]) := by
    simp [dbusif_stop_handler, hargs, hfound, hname, dbusif_ack]
  refine ⟨h, ?_, ?_, ?_⟩ <;> rw [h] <;>
    simp [Effect.isEngineCall, Effect.isPlay, Effect.isPause, Effect.isStop, Effect.isAck]

/-- C7 at Stop (2) resolving to the request named "alarm". -/
theorem C7_other_stop_immediate_witness :
    dbus_message_get_args_uint32 (sample_stop 2) = some 2 ∧
      dbusif_lookup_request [sample_request_ringtone, sample_request_alarm] 2 =
        some sample_request_alarm ∧
      n_request_get_name sample_request_alarm ≠ some "ringtone" ∧
      dbusif_stop_handler [sample_request_ringtone, sample_request_alarm] (sample_stop 2) =
        (DBusHandlerResult.HANDLED,
          [Effect.stop_request sample_request_alarm 0, Effect.ack 2]) :=
  ⟨by decide, by decide, by decide,
    (C7_other_stop_immediate [sample_request_ringtone, sample_request_alarm]
      (sample_stop 2) 2 sample_request_alarm (by decide) (by decide) (by decide)).1⟩

/-- C8: for every well-formed Pause (id, pause) whose id resolves to an active
request r, the handler makes exactly one engine call, pause (r) when pause is
true and play (r) when pause is false, never a stop call, and then sends exactly
one ack carrying id; the correlation counter is unchanged. -/
theorem C8_pause_or_resume (g : DBusInterfaceData) (L : List NRequest) (msg : DBusMessage)
    (event_id : Nat) (pause : Bool) (request : NRequest)
    (hcall : is_pause_call msg = true)
    (hargs : dbus_message_get_args_uint32_boolean msg = some (event_id, pause))
    (hfound : dbusif_lookup_request L event_id = some request) :
    dbusif_pause_handler L msg =
        (DBusHandlerResult.HANDLED,
          [if pause then Effect.pause_request request else Effect.play_request request,
           Effect.ack event_id]) ∧
      (dbusif_message_function g L msg).2.2 =
        [if pause then Effect.pause_request request else Effect.play_request request,
         Effect.ack event_id] ∧
      (dbusif_message_function g L msg).2.2.filter Effect.isEngineCall =
        [if pause then Effect.pause_request request else Effect.play_request request] ∧
      (dbusif_message_function g L msg).2.2.filter Effect.isStop = [] ∧
      (dbusif_message_function g L msg).2.2.filter Effect.isAck = [Effect.ack event_id] ∧
      (dbusif_message_function g L msg).2.1 = g := by
  have h : dbusif_pause_handler L msg =
      (DBusHandlerResult.HANDLED,
        [if pause then Effect.pause_request request else Effect.play_request request,
         Effect.ack event_id]) := by
    simp [dbusif_pause_handler, hargs, hfound, dbusif_ack]
  rw [message_function_pause g L msg hcall, h]
  refine ⟨rfl, rfl, ?_, ?_, ?_, rfl⟩ <;> cases pause <;>
    simp [Effect.isEngineCall, Effect.isPlay, Effect.isPause, Effect.isStop, Effect.isAck]

/-- C8 at Pause (2, false), a resume of the request named "alarm". -/
theorem C8_pause_or_resume_witness :
    is_pause_call (sample_pause 2 false) = true ∧
      dbus_message_get_args_uint32_boolean (sample_pause 2 false) = some (2, false) ∧
      dbusif_lookup_request [sample_request_ringtone, sample_request_alarm] 2 =
        some sample_request_alarm ∧
      (dbusif_message_function { event_id := 2 } [sample_request_ringtone, sample_request_alarm]
        (sample_pause 2 false)).2.2 =
          [if false then Effect.pause_request sample_request_alarm
            else Effect.play_request sample_request_alarm,
           Effect.ack 2] :=
  ⟨by decide, by decide, by decide,
    (C8_pause_or_resume { event_id := 2 } [sample_request_ringtone, sample_request_alarm]
      (sample_pause 2 false) 2 false sample_request_alarm (by decide) (by decide)
      (by decide)).2.1⟩

/-- C9: for every active-request list L and every NameOwnerChanged signal with
arguments (name, old owner, new owner): when name is "org.freedesktop.ohm" the
handler issues exactly one stop (r, 0) for each r in L, in list order, no pause
call (also for requests named "ringtone") and no reply, hence no engine call when
L is empty; for any other name it issues no engine call at all.  The signal is
left to other consumers and the counter is unchanged. -/
theorem C9_peer_restart_stops_all (g : DBusInterfaceData) (L : List NRequest)
    (msg : DBusMessage) (component s1 s2 : String)
    (hsig : dbus_message_is_signal msg "org.freedesktop.DBus" "NameOwnerChanged" = true)
    (hargs : dbus_message_get_args_string3 msg = some (component, s1, s2)) :
    (component = "org.freedesktop.ohm" →
        (dbusif_message_function g L msg).2.2 = L.map (fun r => Effect.stop_request r 0) ∧
        (dbusif_message_function g L msg).2.2.filter Effect.isPause = [] ∧
        (dbusif_message_function g L msg).2.2.filter Effect.isPlay = [] ∧
        (dbusif_message_function g L msg).2.2.filter Effect.isAck = [] ∧
        (dbusif_message_function g L msg).2.2.filter Effect.isError = [] ∧
        (L = [] → (dbusif_message_function g L msg).2.2 = [])) ∧
      (component ≠ "org.freedesktop.ohm" → (dbusif_message_function g L msg).2.2 = []) ∧
      (dbusif_message_function g L msg).1 = DBusHandlerResult.NOT_YET_HANDLED ∧
      (dbusif_message_function g L msg).2.1 = g := by
  have hfun : dbusif_message_function g L msg =
      (DBusHandlerResult.NOT_YET_HANDLED, g,
        if component = "org.freedesktop.ohm" then L.map (fun r => Effect.stop_request r 0)
        else []) := by
    unfold dbusif_message_function
    by_cases hc : component = "org.freedesktop.ohm"
    · simp [hsig, hargs, hc, stop_all_eq_map]
    · simp [hsig, hargs, hc]
  rw [hfun]
  refine ⟨?_, ?_, rfl, rfl⟩
  · intro hc
    rw [if_pos hc]
    refine ⟨rfl, ?_, ?_, ?_, ?_, ?_⟩
    · simp [List.filter_eq_nil_iff, Effect.isPause]
    · simp [List.filter_eq_nil_iff, Effect.isPlay]
    · simp [List.filter_eq_nil_iff, Effect.isAck]
    · simp [List.filter_eq_nil_iff, Effect.isError]
    · intro hL
      simp [hL]
  · intro hc
    simp [hc]

/-- C9 at the signal NameOwnerChanged ("org.freedesktop.ohm", ":1.7", "") with the
"ringtone" and "alarm" requests active. -/
theorem C9_peer_restart_stops_all_witness :
    dbus_message_is_signal (sample_name_owner_changed "org.freedesktop.ohm")
        "org.freedesktop.DBus" "NameOwnerChanged" = true ∧
      dbus_message_get_args_string3 (sample_name_owner_changed "org.freedesktop.ohm") =
        some ("org.freedesktop.ohm", ":1.7", "") ∧
      (dbusif_message_function dbusif_initialize [sample_request_ringtone, sample_request_alarm]
        (sample_name_owner_changed "org.freedesktop.ohm")).2.2 =
          [sample_request_ringtone, sample_request_alarm].map
            (fun r => Effect.stop_request r 0) :=
  ⟨by decide, by decide,
    ((C9_peer_restart_stops_all dbusif_initialize [sample_request_ringtone, sample_request_alarm]
      (sample_name_owner_changed "org.freedesktop.ohm") "org.freedesktop.ohm" ":1.7" ""
      (by decide) (by decide)).1 rfl).1⟩

/-- C10, as stated, fails on the request-completed path: for the engine-supplied
result code -1 the notification for the request tagged 2 carries the code
4294967295, which is not -1. -/
theorem C10_counterexample :
    n_proplist_get_uint (n_request_get_properties sample_request_alarm) "dbus.event.id" = 2 ∧
      dbusif_send_reply sample_request_alarm (-1) = [Effect.status_signal 2 4294967295] ∧
      ¬ (∀ status : Nat,
          Effect.status_signal 2 status ∈ dbusif_send_reply sample_request_alarm (-1) →
            (status : Int) = -1) := by
  refine ⟨by decide, by decide, ?_⟩
  intro h
  have h1 := h 4294967295 (by decide)
  omega

/-- C10 (amended): for every request and every engine callback, a notification
is emitted if and only if the correlation id stored in the property bag of the
request is non-zero, and then exactly one notification (event_id, code) with
event_id the stored id is emitted; on the request-failed path the code is 0
whatever the message; on the request-completed path the code is the
engine-supplied int converted to unsigned 32 bits, that is the result code
modulo 2^32: the result code itself when it is non-negative, and the result code
plus 2^32 when it is negative. -/
theorem C10_status_notification (request : NRequest) (code : Int) (err_msg : Option String) :
    (dbusif_send_reply request code ≠ [] ↔
        n_proplist_get_uint (n_request_get_properties request) "dbus.event.id" ≠ 0) ∧
      (dbusif_send_error request err_msg ≠ [] ↔
        n_proplist_get_uint (n_request_get_properties request) "dbus.event.id" ≠ 0) ∧
      (n_proplist_get_uint (n_request_get_properties request) "dbus.event.id" ≠ 0 →
        dbusif_send_reply request code =
          [Effect.status_signal
            (n_proplist_get_uint (n_request_get_properties request) "dbus.event.id")
            (code % 2 ^ 32).toNat] ∧
        dbusif_send_error request err_msg =
          [Effect.status_signal
            (n_proplist_get_uint (n_request_get_properties request) "dbus.event.id") 0]) ∧
      (0 ≤ code → code < 2 ^ 31 → ((code % 2 ^ 32).toNat : Int) = code) ∧
      (code < 0 → -(2 ^ 31) ≤ code → ((code % 2 ^ 32).toNat : Int) = code + 2 ^ 32) := by
  have hdef : ∀ c : Int, dbusif_send_reply request c =
      if n_proplist_get_uint (n_request_get_properties request) "dbus.event.id" = 0 then []
      else [Effect.status_signal
        (n_proplist_get_uint (n_request_get_properties request) "dbus.event.id")
        (c % 2 ^ 32).toNat] := by
    intro c
    rfl
  refine ⟨?_, ?_, ?_, ?_, ?_⟩
  · rw [hdef]
    by_cases h0 : n_proplist_get_uint (n_request_get_properties request) "dbus.event.id" = 0
    · simp [h0]
    · simp [h0]
  · unfold dbusif_send_error
    rw [hdef]
    by_cases h0 : n_proplist_get_uint (n_request_get_properties request) "dbus.event.id" = 0
    · simp [h0]
    · simp [h0]
  · intro h0
    unfold dbusif_send_error
    rw [hdef, hdef]
    simp [h0]
  · intro h1 h2
    omega
  · intro h1 h2
    omega

/-- C10 (amended) at the request tagged 2 with the result codes 5 and -1. -/
theorem C10_status_notification_witness :
    n_proplist_get_uint (n_request_get_properties sample_request_alarm) "dbus.event.id" ≠ 0 ∧
      (dbusif_send_reply sample_request_alarm 5 =
          [Effect.status_signal
            (n_proplist_get_uint (n_request_get_properties sample_request_alarm)
              "dbus.event.id")
            ((5 : Int) % 2 ^ 32).toNat] ∧
        dbusif_send_error sample_request_alarm (some "no sink") =
          [Effect.status_signal
            (n_proplist_get_uint (n_request_get_properties sample_request_alarm)
              "dbus.event.id") 0]) ∧
      ((((-1 : Int) % 2 ^ 32).toNat : Int) = -1 + 2 ^ 32) :=
  ⟨by decide,
    (C10_status_notification sample_request_alarm 5 (some "no sink")).2.2.1 (by decide),
    (C10_status_notification sample_request_alarm (-1) none).2.2.2.2 (by decide) (by decide)⟩

/-- C11: lookup over an active-request list L: for id 0 the result is
not-found for every L; for a non-zero id the result is the first request of L
whose property bag stores id under "dbus.event.id", and it is not-found exactly
when no request of L stores id there (a request without a property bag or
without the key never matches). -/
theorem C11_lookup_first_match (L : List NRequest) (event_id : Nat) :
    dbusif_lookup_request L 0 = none ∧
      (event_id ≠ 0 →
        dbusif_lookup_request L event_id =
          L.find? (fun r => request_stores_id r event_id)) ∧
      (event_id ≠ 0 →
        (dbusif_lookup_request L event_id = none ↔
          ∀ r ∈ L, request_stores_id r event_id = false)) ∧
      (∀ r : NRequest, n_request_get_properties r = none → request_stores_id r event_id = false) ∧
      (∀ (r : NRequest) (p : NProplist), n_request_get_properties r = some p →
        n_proplist_get p "dbus.event.id" = none → request_stores_id r event_id = false) := by
  refine ⟨by simp [dbusif_lookup_request], ?_, ?_, ?_, ?_⟩
  · intro h
    simp [dbusif_lookup_request, h, lookup_request_loop_eq_find L event_id h]
  · intro h
    simp [dbusif_lookup_request, h, lookup_request_loop_eq_find L event_id h]
  · intro r hr
    simp [request_stores_id, hr]
  · intro r p hr hp
    simp [request_stores_id, hr, hp]

/-- C11 at the lookup of id 2 among an untagged request and the requests tagged
1 and 2. -/
theorem C11_lookup_first_match_witness :
    (2 : Nat) ≠ 0 ∧
      dbusif_lookup_request
          [sample_request_untagged, sample_request_ringtone, sample_request_alarm] 2 =
        [sample_request_untagged, sample_request_ringtone, sample_request_alarm].find?
          (fun r => request_stores_id r 2) ∧
      [sample_request_untagged, sample_request_ringtone, sample_request_alarm].find?
          (fun r => request_stores_id r 2) = some sample_request_alarm :=
  ⟨by decide,
    (C11_lookup_first_match
      [sample_request_untagged, sample_request_ringtone, sample_request_alarm] 2).2.1
      (by decide),
    by decide⟩

/-- C12: decoding an array of wire entries never fails on an entry: the bag
returned by `msg_get_properties` is the bag obtained by applying, in array order,
a set (key, value) for exactly the entries that are dict entries with a string
key and a variant value of type string, uint32, int32 or boolean, a later write
to a key overwriting an earlier one, every other entry being skipped. -/
theorem C12_decode_skips_unsupported (array : List DBusItem) (rest : List DBusArg) :
    msg_get_properties (DBusArg.array array :: rest) = some (spec_decode array) ∧
      (∀ (p : NProplist) (entry : DBusItem), spec_entry_write entry = none →
        (msg_parse_dict entry p).2 = p) ∧
      (∀ (p : NProplist) (key : String) (v w : NValue),
        n_proplist_get (n_proplist_set (n_proplist_set p key v) key w) key = some w) := by
  refine ⟨?_, ?_, ?_⟩
  · simp [msg_get_properties, spec_decode, get_properties_loop_eq_spec]
  · intro p entry h
    rw [parse_dict_eq_spec, h]
  · intro p key v w
    exact n_proplist_get_set_same _ _ _

/-- C12 at an entry that is no dict entry, for which nothing is written. -/
theorem C12_decode_skips_unsupported_witness :
    spec_entry_write (DBusItem.uint32 3) = none ∧
      (msg_parse_dict (DBusItem.uint32 3) [("volume", NValue.uint 7)]).2 =
        [("volume", NValue.uint 7)] :=
  ⟨by decide,
    (C12_decode_skips_unsupported [] []).2.1 [("volume", NValue.uint 7)] (DBusItem.uint32 3)
      (by decide)⟩

/-- C13, as stated, fails for the absent dict list: the call Play ("alarm")
without a properties argument is not decoded to an empty bag; it is answered with
"Malformed method call." and neither acked nor played. -/
theorem C13_counterexample :
    is_play_call sample_play_no_properties = true ∧
      msg_get_properties
        (dbus_message_iter_next (dbus_message_iter_init sample_play_no_properties)) = none ∧
      (dbusif_message_function dbusif_initialize [] sample_play_no_properties).2.2 =
        [Effect.reply_error "Malformed method call."] := by
  decide

/-- C13 (amended): decoding an empty dict list yields an empty property bag and
never an error, and the Play is accepted (acked and played with a bag holding
only the correlation id); an absent dict list, a Play message with an event name
and no further argument, is not decoded: `msg_get_properties` fails on the missing
array and the Play is answered with "Malformed method call.". -/
theorem C13_empty_dict_accepted_absent_rejected (g : DBusInterfaceData) (L : List NRequest)
    (msg : DBusMessage) (event : String) (hplay : is_play_call msg = true) :
    (∀ rest : List DBusArg,
        msg.args = DBusArg.item (DBusItem.string event) :: DBusArg.array [] :: rest →
        msg_get_properties (dbus_message_iter_next (dbus_message_iter_init msg)) = some [] ∧
        (dbusif_message_function g L msg).2.2 =
          [Effect.ack ((g.event_id + 1) % UINT32_MOD),
           Effect.play_request
            { name := some event,
              properties :=
                some [("dbus.event.id", NValue.uint ((g.event_id + 1) % UINT32_MOD))] }]) ∧
      (msg.args = [DBusArg.item (DBusItem.string event)] →
        msg_get_properties (dbus_message_iter_next (dbus_message_iter_init msg)) = none ∧
        (dbusif_message_function g L msg).2.2 =
          [Effect.reply_error "Malformed method call."]) := by
  refine ⟨?_, ?_⟩
  · intro rest hargs
    refine ⟨?_, ?_⟩
    · simp [dbus_message_iter_init, dbus_message_iter_next, hargs, msg_get_properties,
        msg_get_properties_loop, n_proplist_new]
    · rw [message_function_play g L msg hplay, play_handler_accepted msg _ event [] rest hargs]
      rfl
  · intro hargs
    have hrej : play_args_accepted msg = false := by
      simp [play_args_accepted, dbus_message_iter_init, dbus_message_iter_next, hargs,
        dbus_message_iter_get_arg_type, DBusArg.argType, DBusItem.argType]
    refine ⟨?_, ?_⟩
    · simp [dbus_message_iter_init, dbus_message_iter_next, hargs, msg_get_properties]
    · rw [message_function_play g L msg hplay, play_handler_rejected msg _ hrej]

/-- C13 (amended) at Play ("alarm", {}) and Play ("alarm"). -/
theorem C13_empty_dict_accepted_absent_rejected_witness :
    is_play_call sample_play_alarm = true ∧
      is_play_call sample_play_no_properties = true ∧
      (dbusif_message_function dbusif_initialize [] sample_play_alarm).2.2 =
        [Effect.ack (( dbusif_initialize.event_id + 1) % UINT32_MOD),
         Effect.play_request
          { name := some "alarm",
            properties :=
              some [("dbus.event.id",
                NValue.uint (( dbusif_initialize.event_id + 1) % UINT32_MOD))] }] ∧
      (dbusif_message_function dbusif_initialize [] sample_play_no_properties).2.2 =
        [Effect.reply_error "Malformed method call."] :=
  ⟨by decide, by decide,
    ((C13_empty_dict_accepted_absent_rejected dbusif_initialize [] sample_play_alarm "alarm"
      (by decide)).1 [] rfl).2,
    ((C13_empty_dict_accepted_absent_rejected dbusif_initialize [] sample_play_no_properties
      "alarm" (by decide)).2 rfl).2⟩

/-- On every candidate list, with the filter enabled and at least one of the four
flags present, filtering applies `g_list_remove` once for every mapped slot whose
flag is present-and-false or absent; on a candidate list that holds no sink twice
this keeps exactly the sinks that sit in no such slot, in their original order. -/
theorem filter_sinks_cb_on_nodup (st : ResourceState) (request : NRequest)
    (sinks : List NSinkInterface) (key : String)
    (hen : st.resource_map_enabled = true)
    (hkey : key ∈ resource_keys)
    (hpresent : n_proplist_has_key (n_request_get_properties request) key = true) :
    filter_sinks_cb st request sinks =
        (disabled_mapped_sinks st.sink_map (n_request_get_properties request)).foldl
          g_list_remove sinks ∧
      (sinks.Nodup →
        filter_sinks_cb st request sinks =
          sinks.filter (fun s =>
            decide (s ∉ disabled_mapped_sinks st.sink_map (n_request_get_properties request)))) := by
  have hforce := force_enabled_of_present _ key hkey hpresent
  have hcb := filter_sinks_cb_forced st request sinks hen hforce
  refine ⟨hcb, ?_⟩
  intro hnd
  rw [hcb, foldl_remove_eq_filter _ sinks hnd]

/-- C15: filtering leaves the candidate sink list unchanged in both pass-through
cases: for every request when the filter is disabled, which is the state the init
hook leaves when the configuration is absent or empty, and, with the filter
enabled, for every request whose property bag holds none of the four resource
flags, whatever the mapping table. -/
theorem C15_filter_pass_through (st : ResourceState) (request : NRequest)
    (sinks : List NSinkInterface) :
    (st.resource_map_enabled = false → filter_sinks_cb st request sinks = sinks) ∧
      (∀ (registered : List NSinkInterface) (params : Option NProplist),
        params = none ∨ n_proplist_size params = 0 →
        (init_done_cb resource_state_start registered params).resource_map_enabled = false ∧
        filter_sinks_cb (init_done_cb resource_state_start registered params) request sinks =
          sinks) ∧
      (st.resource_map_enabled = true →
        (∀ key ∈ resource_keys,
          n_proplist_has_key (n_request_get_properties request) key = false) →
        filter_sinks_cb st request sinks = sinks) := by
  refine ⟨?_, ?_, ?_⟩
  · intro h
    simp [filter_sinks_cb, h]
  · intro registered params hp
    have hst : init_done_cb resource_state_start registered params = resource_state_start := by
      unfold init_done_cb
      rcases hp with hp | hp
      · simp [hp]
      · simp [hp]
    rw [hst]
    exact ⟨rfl, by simp [filter_sinks_cb, resource_state_start]⟩
  · intro hen hnone
    have hforce : filter_sinks_force_enabled (n_request_get_properties request) = false := by
      unfold filter_sinks_force_enabled
      rw [List.any_eq_false]
      intro key hkey
      simp [hnone key hkey]
    unfold filter_sinks_cb
    simp only [hen, hforce]
    exact filter_sinks_loop_not_forced _ _

/-- C15 at a request without resource flags, with audio and vibra mapped. -/
theorem C15_filter_pass_through_witness :
    (init_done_cb resource_state_start sample_sinks (some sample_params)).resource_map_enabled
        = true ∧
      (∀ key ∈ resource_keys,
        n_proplist_has_key (n_request_get_properties sample_request_alarm) key = false) ∧
      filter_sinks_cb (init_done_cb resource_state_start sample_sinks (some sample_params))
        sample_request_alarm sample_sinks = sample_sinks ∧
      filter_sinks_cb (init_done_cb resource_state_start sample_sinks (some []))
        sample_request_audio_off sample_sinks = sample_sinks :=
  ⟨by decide, by decide,
    (C15_filter_pass_through
      (init_done_cb resource_state_start sample_sinks (some sample_params))
      sample_request_alarm sample_sinks).2.2 (by decide) (by decide),
    ((C15_filter_pass_through resource_state_start sample_request_audio_off sample_sinks).2.1
      sample_sinks (some []) (Or.inr (by decide))).2⟩

/-- C16, the code at a mapping table that holds one sink in two slots: with leds
and backlight both mapped to "mce" and a request with media.leds = true only, the
sink "mce" is mapped to a flag that is present-and-true, and the code removes it
all the same, through the backlight slot. -/
theorem C16_shared_sink_dropped :
    (init_done_cb resource_state_start sample_sinks (some sample_params_shared)) =
        { resource_map_enabled := true,
          sink_map := { audio := none, vibra := none, leds := some sample_sink_mce,
                        blight := some sample_sink_mce } } ∧
      flag_present_and_true (n_request_get_properties sample_request_leds_only) "media.leds"
        = true ∧
      sample_sink_mce ∈ enabled_mapped_sinks
        (init_done_cb resource_state_start sample_sinks (some sample_params_shared)).sink_map
        (n_request_get_properties sample_request_leds_only) ∧
      sample_sink_mce ∈ sample_sinks ∧
      filter_sinks_cb (init_done_cb resource_state_start sample_sinks (some sample_params_shared))
        sample_request_leds_only sample_sinks = [sample_sink_gst, sample_sink_vibra] ∧
      sample_sink_mce ∉
        filter_sinks_cb
          (init_done_cb resource_state_start sample_sinks (some sample_params_shared))
          sample_request_leds_only sample_sinks := by
  decide

/-- C17: after the init hook has run on the start state, the filter is enabled if
and only if the configuration is present and non-empty and at least one of the
four flags has a configured sink name equal to the name of some registered sink;
the slot of each flag holds the first registered sink whose name equals the name
configured for that flag, and is empty when no name is configured or no
registered sink has that name. -/
theorem C17_init_builds_table (registered : List NSinkInterface) (params : Option NProplist) :
    ((init_done_cb resource_state_start registered params).resource_map_enabled = true ↔
        (params ≠ none ∧ n_proplist_size params ≠ 0 ∧
          ∃ key ∈ resource_keys, ∃ name, n_proplist_get_string params key = some name ∧
            ∃ sink ∈ registered, n_sink_interface_get_name sink = name)) ∧
      (init_done_cb resource_state_start registered params).sink_map.slots =
        resource_keys.map (fun key =>
          match n_proplist_get_string params key with
          | none => none
          | some name =>
            registered.find? (fun sink => n_sink_interface_get_name sink == name)) ∧
      (∀ name : String,
        registered.find? (fun sink => n_sink_interface_get_name sink == name) = none ↔
          ∀ sink ∈ registered, n_sink_interface_get_name sink ≠ name) := by
  by_cases hp : params = none ∨ n_proplist_size params = 0
  · have hst : init_done_cb resource_state_start registered params = resource_state_start := by
      unfold init_done_cb
      rcases hp with hp | hp
      · simp [hp]
      · simp [hp]
    refine ⟨?_, ?_, ?_⟩
    · rw [hst]
      constructor
      · intro h
        cases h
      · rintro ⟨h1, h2, _⟩
        rcases hp with hp | hp
        · exact absurd hp h1
        · exact absurd hp h2
    · rw [hst]
      simp [resource_state_start, SinkMap.slots, resource_keys, get_string_of_size_zero params _ hp]
    · intro name
      simp [List.find?_eq_none]
  · have h1 : params ≠ none := fun h => hp (Or.inl h)
    have h2 : n_proplist_size params ≠ 0 := fun h => hp (Or.inr h)
    have hcond : (params.isNone || decide (n_proplist_size params = 0)) = false := by
      cases params with
      | none => exact absurd rfl h1
      | some p => simp [h2]
    refine ⟨?_, ?_, ?_⟩
    · unfold init_done_cb
      simp only [hcond, Bool.false_eq_true, if_false]
      simp only [resource_state_start, SinkMap.slots, resource_keys, List.any_cons, List.any_nil,
        Bool.or_false, List.mem_cons, List.mem_singleton, List.not_mem_nil, or_false]
      constructor
      · intro h
        refine ⟨h1, h2, ?_⟩
        have h' : (lookup_sink_from_key registered
              (n_proplist_get_string params "media.audio")).isSome = true ∨
            (lookup_sink_from_key registered
              (n_proplist_get_string params "media.vibra")).isSome = true ∨
            (lookup_sink_from_key registered
              (n_proplist_get_string params "media.leds")).isSome = true ∨
            (lookup_sink_from_key registered
              (n_proplist_get_string params "media.backlight")).isSome = true := by
          by_contra hc
          simp only [not_or, Bool.not_eq_true] at hc
          obtain ⟨c1, c2, c3, c4⟩ := hc
          simp [c1, c2, c3, c4] at h
        rcases h' with h' | h' | h' | h'
        · exact ⟨"media.audio", Or.inl rfl, (lookup_sink_isSome_iff _ _).mp h'⟩
        · exact ⟨"media.vibra", Or.inr (Or.inl rfl), (lookup_sink_isSome_iff _ _).mp h'⟩
        · exact ⟨"media.leds", Or.inr (Or.inr (Or.inl rfl)), (lookup_sink_isSome_iff _ _).mp h'⟩
        · exact ⟨"media.backlight", Or.inr (Or.inr (Or.inr rfl)),
            (lookup_sink_isSome_iff _ _).mp h'⟩
      · rintro ⟨_, _, key, hkey, hname⟩
        have hsome := (lookup_sink_isSome_iff registered (n_proplist_get_string params key)).mpr
          hname
        rcases hkey with hkey | hkey | hkey | hkey <;> subst hkey <;> simp [hsome]
    · unfold init_done_cb
      simp only [hcond, Bool.false_eq_true, if_false]
      simp [SinkMap.slots, resource_keys, lookup_sink_from_key_eq]
    · intro name
      simp [List.find?_eq_none]

/-- C17 at the configuration that maps audio to "gst" and vibra to "ffmemless". -/
theorem C17_init_builds_table_witness :
    (init_done_cb resource_state_start sample_sinks (some sample_params)).sink_map.slots =
        resource_keys.map (fun key =>
          match n_proplist_get_string (some sample_params) key with
          | none => none
          | some name =>
            sample_sinks.find? (fun sink => n_sink_interface_get_name sink == name)) ∧
      (init_done_cb resource_state_start sample_sinks (some sample_params)).sink_map.slots =
        [some sample_sink_gst, some sample_sink_vibra, none, none] ∧
      (init_done_cb resource_state_start sample_sinks (some sample_params)).resource_map_enabled
        = true :=
  ⟨(C17_init_builds_table sample_sinks (some sample_params)).2.1, by decide, by decide⟩

/-- C18, as stated, fails: a method call on the interface "org.example.Other" is
neither the peer-liveness signal nor on the plugin interface, and the dispatcher
answers it with HANDLED, not with NOT_YET_HANDLED. -/
theorem C18_counterexample :
    dbus_message_is_signal sample_foreign_call "org.freedesktop.DBus" "NameOwnerChanged"
        = false ∧
      dbus_message_has_interface sample_foreign_call "com.nokia.NonGraphicFeedback1" = false ∧
      (dbusif_message_function dbusif_initialize [sample_request_ringtone]
        sample_foreign_call).1 ≠ DBusHandlerResult.NOT_YET_HANDLED ∧
      dbusif_message_function dbusif_initialize [sample_request_ringtone] sample_foreign_call =
        (DBusHandlerResult.HANDLED, dbusif_initialize, []) := by
  decide

/-- C18 (amended): every inbound message that is neither the peer-liveness signal
nor on the interface "com.nokia.NonGraphicFeedback1" is consumed by the
dispatcher without any action: the result is HANDLED (not NOT_YET_HANDLED), with
no reply, no engine call and no change to the correlation counter. -/
theorem C18_foreign_message_consumed (g : DBusInterfaceData) (L : List NRequest)
    (msg : DBusMessage)
    (hsig : dbus_message_is_signal msg "org.freedesktop.DBus" "NameOwnerChanged" = false)
    (hiface : dbus_message_has_interface msg "com.nokia.NonGraphicFeedback1" = false) :
    dbusif_message_function g L msg = (DBusHandlerResult.HANDLED, g, []) := by
  have hiface2 : dbus_message_has_interface msg NGF_DBUS_IFACE = false := hiface
  unfold dbusif_message_function
  cases hm : dbus_message_get_member msg with
  | none => simp [hsig]
  | some member => simp [hsig, hiface2]

/-- C18 (amended) at a method call on the interface "org.example.Other". -/
theorem C18_foreign_message_consumed_witness :
    dbus_message_is_signal sample_foreign_call "org.freedesktop.DBus" "NameOwnerChanged"
        = false ∧
      dbus_message_has_interface sample_foreign_call "com.nokia.NonGraphicFeedback1" = false ∧
      dbusif_message_function { event_id := 4 } [sample_request_ringtone] sample_foreign_call =
        (DBusHandlerResult.HANDLED, { event_id := 4 }, []) :=
  ⟨by decide, by decide,
    C18_foreign_message_consumed { event_id := 4 } [sample_request_ringtone] sample_foreign_call
      (by decide) (by decide)⟩

/-- C19: for every message on the interface "com.nokia.NonGraphicFeedback1"
whose method name is none of "Play", "Stop", "Pause", the dispatcher returns
HANDLED, sends no reply (neither ack nor error), makes no engine call and leaves
the correlation counter unchanged. -/
theorem C19_unknown_method_silent (g : DBusInterfaceData) (L : List NRequest)
    (msg : DBusMessage)
    (hiface : dbus_message_has_interface msg "com.nokia.NonGraphicFeedback1" = true)
    (hplay : dbus_message_get_member msg ≠ some "Play")
    (hstop : dbus_message_get_member msg ≠ some "Stop")
    (hpause : dbus_message_get_member msg ≠ some "Pause") :
    dbusif_message_function g L msg = (DBusHandlerResult.HANDLED, g, []) := by
  have hiface2 : dbus_message_has_interface msg NGF_DBUS_IFACE = true := hiface
  have hsig := not_signal_of_has_interface msg hiface2
  unfold dbusif_message_function
  cases hm : dbus_message_get_member msg with
  | none => simp [hsig]
  | some member =>
    rw [hm] at hplay hstop hpause
    have h1 : member ≠ NGF_DBUS_METHOD_PLAY := fun h => hplay (by rw [h]; rfl)
    have h2 : member ≠ NGF_DBUS_METHOD_STOP := fun h => hstop (by rw [h]; rfl)
    have h3 : member ≠ NGF_DBUS_METHOD_PAUSE := fun h => hpause (by rw [h]; rfl)
    simp [hsig, hiface2, h1, h2, h3]

/-- C19 at the call of the unknown method "Resume". -/
theorem C19_unknown_method_silent_witness :
    dbus_message_has_interface sample_unknown_method "com.nokia.NonGraphicFeedback1" = true ∧
      dbus_message_get_member sample_unknown_method ≠ some "Play" ∧
      dbus_message_get_member sample_unknown_method ≠ some "Stop" ∧
      dbus_message_get_member sample_unknown_method ≠ some "Pause" ∧
      dbusif_message_function { event_id := 4 } [sample_request_ringtone] sample_unknown_method =
        (DBusHandlerResult.HANDLED, { event_id := 4 }, []) :=
  ⟨by decide, by decide, by decide, by decide,
    C19_unknown_method_silent { event_id := 4 } [sample_request_ringtone] sample_unknown_method
      (by decide) (by decide) (by decide) (by decide)⟩

/-- C21: for every handler state and every message on the interface
"com.nokia.NonGraphicFeedback1" whose method is Play, Stop or Pause, well-formed
or not, with a known id or not, the handler sends exactly one reply, which is
either an ack or an error and never both, and returns HANDLED; an error reply is
never accompanied by an engine call. -/
theorem C21_exactly_one_reply (g : DBusInterfaceData) (L : List NRequest) (msg : DBusMessage)
    (hiface : dbus_message_has_interface msg "com.nokia.NonGraphicFeedback1" = true)
    (hmember : dbus_message_get_member msg = some "Play" ∨
      dbus_message_get_member msg = some "Stop" ∨
      dbus_message_get_member msg = some "Pause") :
    (dbusif_message_function g L msg).1 = DBusHandlerResult.HANDLED ∧
      ((dbusif_message_function g L msg).2.2.filter
        (fun e => e.isAck || e.isError)).length = 1 ∧
      (((dbusif_message_function g L msg).2.2.filter Effect.isAck).length = 1 ∧
          (dbusif_message_function g L msg).2.2.filter Effect.isError = [] ∨
        ((dbusif_message_function g L msg).2.2.filter Effect.isError).length = 1 ∧
          (dbusif_message_function g L msg).2.2.filter Effect.isAck = [] ∧
          (dbusif_message_function g L msg).2.2.filter Effect.isEngineCall = []) := by
  have hiface2 : dbus_message_has_interface msg NGF_DBUS_IFACE = true := hiface
  have hsig := not_signal_of_has_interface msg hiface2
  rcases hmember with hm | hm | hm
  · have hcall : is_play_call msg = true := by
      simp [is_play_call, hsig, hm, hiface2, NGF_DBUS_METHOD_PLAY]
    rw [message_function_play g L msg hcall]
    rcases play_handler_shape msg ((g.event_id + 1) % UINT32_MOD) with ⟨request, h⟩ | h <;>
      rw [h] <;>
      simp [Effect.isAck, Effect.isError, Effect.isEngineCall, Effect.isPlay, Effect.isPause,
        Effect.isStop]
  · have hcall : is_stop_call msg = true := by
      simp [is_stop_call, hsig, hm, hiface2, NGF_DBUS_METHOD_STOP]
    rw [message_function_stop g L msg hcall]
    rcases stop_handler_shape L msg with ⟨text, h⟩ | ⟨request, event_id, h⟩ |
        ⟨request, event_id, h⟩ <;>
      rw [h] <;>
      simp [Effect.isAck, Effect.isError, Effect.isEngineCall, Effect.isPlay, Effect.isPause,
        Effect.isStop]
  · have hcall : is_pause_call msg = true := by
      simp [is_pause_call, hsig, hm, hiface2, NGF_DBUS_METHOD_PAUSE]
    rw [message_function_pause g L msg hcall]
    rcases pause_handler_shape L msg with ⟨text, h⟩ | ⟨request, event_id, h⟩ |
        ⟨request, event_id, h⟩ <;>
      rw [h] <;>
      simp [Effect.isAck, Effect.isError, Effect.isEngineCall, Effect.isPlay, Effect.isPause,
        Effect.isStop]

/-- C21 at Stop (9), an id that no active request stores. -/
theorem C21_exactly_one_reply_witness :
    dbus_message_has_interface (sample_stop 9) "com.nokia.NonGraphicFeedback1" = true ∧
      dbus_message_get_member (sample_stop 9) = some "Stop" ∧
      (dbusif_message_function { event_id := 2 } [sample_request_ringtone, sample_request_alarm]
        (sample_stop 9)).1 = DBusHandlerResult.HANDLED ∧
      ((dbusif_message_function { event_id := 2 } [sample_request_ringtone, sample_request_alarm]
        (sample_stop 9)).2.2.filter (fun e => e.isAck || e.isError)).length = 1 :=
  ⟨by decide, by decide,
    (C21_exactly_one_reply { event_id := 2 } [sample_request_ringtone, sample_request_alarm]
      (sample_stop 9) (by decide) (Or.inr (Or.inl (by decide)))).1,
    (C21_exactly_one_reply { event_id := 2 } [sample_request_ringtone, sample_request_alarm]
      (sample_stop 9) (by decide) (Or.inr (Or.inl (by decide)))).2.1⟩

/-- C22: a client cannot choose its own correlation id: for every accepted
Play, also one whose wire dict holds entries for the reserved key "dbus.event.id"
with any value, the property bag of the created request stores under
"dbus.event.id" the unsigned id that was acked; and two Plays handled from the
same state whose dicts differ only in the entries for that key get the same ack
and the same request property bag: the two bags have unique keys, hold the same
value under every key, and so hold the same entries. -/
theorem C22_client_cannot_choose_id (g : DBusInterfaceData) (LA LB : List NRequest)
    (msgA msgB : DBusMessage) (event : String) (elemsA elemsB : List DBusItem)
    (restA restB : List DBusArg)
    (hplayA : is_play_call msgA = true) (hplayB : is_play_call msgB = true)
    (hargsA : msgA.args =
      DBusArg.item (DBusItem.string event) :: DBusArg.array elemsA :: restA)
    (hargsB : msgB.args =
      DBusArg.item (DBusItem.string event) :: DBusArg.array elemsB :: restB)
    (hdiff : elemsA.filter (fun e => !is_reserved_entry e) =
      elemsB.filter (fun e => !is_reserved_entry e)) :
    ∃ bagA bagB : NProplist,
      (dbusif_message_function g LA msgA).2.2 =
        [Effect.ack ((g.event_id + 1) % UINT32_MOD),
         Effect.play_request { name := some event, properties := some bagA }] ∧
      (dbusif_message_function g LB msgB).2.2 =
        [Effect.ack ((g.event_id + 1) % UINT32_MOD),
         Effect.play_request { name := some event, properties := some bagB }] ∧
      n_proplist_get bagA "dbus.event.id" = some (NValue.uint ((g.event_id + 1) % UINT32_MOD)) ∧
      n_proplist_get bagB "dbus.event.id" = some (NValue.uint ((g.event_id + 1) % UINT32_MOD)) ∧
      (n_proplist_keys bagA).Nodup ∧ (n_proplist_keys bagB).Nodup ∧
      (∀ key : String, n_proplist_get bagA key = n_proplist_get bagB key) ∧
      bagA.Perm bagB := by
  refine ⟨n_proplist_set (msg_get_properties_loop elemsA n_proplist_new) "dbus.event.id"
      (NValue.uint ((g.event_id + 1) % UINT32_MOD)),
    n_proplist_set (msg_get_properties_loop elemsB n_proplist_new) "dbus.event.id"
      (NValue.uint ((g.event_id + 1) % UINT32_MOD)), ?_, ?_, ?_, ?_, ?_, ?_, ?_, ?_⟩
  · rw [message_function_play g LA msgA hplayA,
      play_handler_accepted msgA _ event elemsA restA hargsA]
    rfl
  · rw [message_function_play g LB msgB hplayB,
      play_handler_accepted msgB _ event elemsB restB hargsB]
    rfl
  · exact n_proplist_get_set_same _ _ _
  · exact n_proplist_get_set_same _ _ _
  · exact final_bag_nodup_keys elemsA _
  · exact final_bag_nodup_keys elemsB _
  · exact final_bag_get_eq elemsA elemsB _ hdiff
  · exact perm_of_get_eq _ _ (final_bag_nodup_keys elemsA _) (final_bag_nodup_keys elemsB _)
      (final_bag_get_eq elemsA elemsB _ hdiff)

/-- C22 at Play ("alarm", {"dbus.event.id": 77, "volume": 7}) against
Play ("alarm", {"volume": 7}), both handled with the counter at 4. -/
theorem C22_client_cannot_choose_id_witness :
    is_play_call sample_play_spoofed = true ∧
      is_play_call sample_play_plain = true ∧
      ack_ids (dbusif_message_function { event_id := 4 } [] sample_play_spoofed).2.2 = [5] ∧
      ack_ids (dbusif_message_function { event_id := 4 } [] sample_play_plain).2.2 = [5] ∧
      ∃ bagA bagB : NProplist,
        (dbusif_message_function { event_id := 4 } [] sample_play_spoofed).2.2 =
          [Effect.ack ((4 + 1) % UINT32_MOD),
           Effect.play_request { name := some "alarm", properties := some bagA }] ∧
        (dbusif_message_function { event_id := 4 } [] sample_play_plain).2.2 =
          [Effect.ack ((4 + 1) % UINT32_MOD),
           Effect.play_request { name := some "alarm", properties := some bagB }] ∧
        n_proplist_get bagA "dbus.event.id" = some (NValue.uint ((4 + 1) % UINT32_MOD)) ∧
        n_proplist_get bagB "dbus.event.id" = some (NValue.uint ((4 + 1) % UINT32_MOD)) ∧
        (n_proplist_keys bagA).Nodup ∧ (n_proplist_keys bagB).Nodup ∧
        (∀ key : String, n_proplist_get bagA key = n_proplist_get bagB key) ∧
        bagA.Perm bagB :=
  ⟨by decide, by decide, by decide, by decide,
    C22_client_cannot_choose_id { event_id := 4 } [] [] sample_play_spoofed sample_play_plain
      "alarm" _ _ [] [] (by decide) (by decide) rfl rfl (by decide)⟩

end Ngfd
